import Mathlib

/-!
Shallow embedding of the dtype inference/coercion engine of the
`eerkela/archivetube` repository (`src/datatube/dtype.py` and
`src/datatube/stats.py`), together with proofs settling the frozen claims
about it.

Modelling conventions:
* Python scalars are modelled by the `Val` type.  Python `float` is modelled
  by exact rationals: every float literal appearing in the claims
  (1.0, 1.5, 2.5, 4.25 = 17/4, ...) is exactly representable in binary
  floating point and the arithmetic the claims exercise (integrality tests,
  `5 * likes / (likes + dislikes)` at the claims' inputs) is exact, so the
  rational model is faithful there.
* The distinct missing-value markers of the source (`np.nan`, `pd.NA`,
  `pd.NaT`, `None`) are distinguished because pandas type inference treats
  them differently.
* A pandas `Series` is a physical dtype plus a list of cells.
* Python exceptions are modelled with `Except PyErr`; every `raise` of the
  source is an `Except.error` carrying a structured rendition of the
  message's variable parts (offending column head, target type, ...).
* Timestamps are modelled as rational epoch seconds and timedeltas as
  rational seconds; the model carries no timezone (the verified claims do
  not distinguish naive from aware datetimes).
-/

deriving instance DecidableEq for Except

namespace Datatube

/-- The atomic typespec vocabulary of `datatube.dtype` (keys of the
`CONVERSIONS` table plus `object`): Python classes used as semantic types. -/
inductive Atomic where
  | int | float | complex | str | bool | datetime | timedelta | object
deriving DecidableEq, Repr

/-- A cell of a pandas Series: a typed Python scalar or one of the
missing-value markers. -/
inductive Val where
  | vInt (n : Int)
  | vFloat (q : Rat)
  | vComplex (re im : Rat)
  | vStr (s : String)
  | vBool (b : Bool)
  | vDatetime (t : Rat)
  | vTimedelta (d : Rat)
  | vNan
  | vNA
  | vNaT
  | vNone
deriving DecidableEq, Repr

namespace Val

/-- `pd.isnull` on a scalar. -/
def isNull : Val → Bool
  | vNan | vNA | vNaT | vNone => true
  | _ => false

/-- Numeric view used by Python `==` between numeric kinds: int, float,
bool and complex compare by value as complex numbers. -/
def asNum : Val → Option (Rat × Rat)
  | vInt n => some ((n : Rat), 0)
  | vFloat q => some (q, 0)
  | vBool b => some (if b then 1 else 0, 0)
  | vComplex re im => some (re, im)
  | _ => none

/-- Python `==` on scalars (only for non-missing values; `nan == x` and
comparisons against the missing markers are `False` for the purposes of the
source's checks). -/
def pyEq (a b : Val) : Bool :=
  match asNum a, asNum b with
  | some x, some y => x = y
  | _, _ =>
    match a, b with
    | vStr s, vStr t => s = t
    | vDatetime s, vDatetime t => s = t
    | vTimedelta s, vTimedelta t => s = t
    | _, _ => false

end Val

/-- Python `int()` truncation toward zero on an exact rational. -/
def ratTrunc (q : Rat) : Int :=
  if 0 ≤ q then q.floor else q.ceil

/-- A rational is an integer (Python `int(x) == x` for a float `x`). -/
def ratIsInt (q : Rat) : Bool := q.den = 1

/-- Parse a Python `int` literal (model of `int(str)`; accepts an optional
sign and decimal digits, surrounding whitespace stripped by the caller). -/
def parsePyInt (s : String) : Option Int :=
  let core (t : String) : Option Int :=
    if t.length > 0 && t.all Char.isDigit then some (t.toNat!) else none
  if s.startsWith ("-") then (core (s.drop 1)).map (fun n => -n)
  else if s.startsWith ("+") then core (s.drop 1)
  else core s

/-- Parse a Python `float` literal as an exact rational (model of
`float(str)`: optional sign, digits, optional fractional part; scientific
notation is not modelled — no verified claim parses such text). -/
def parsePyFloat (s : String) : Option Rat :=
  let digitsVal (t : String) : Option Nat :=
    if t.length > 0 && t.all Char.isDigit then some t.toNat! else none
  let core (t : String) : Option Rat :=
    match t.splitOn (".") with
    | [a] => (digitsVal a).map (fun n => (n : Rat))
    | [a, b] =>
      match digitsVal a, digitsVal b with
      | some n, some m =>
        -- n + m / 10^len, written with `mkRat` (`mkRat n d = n / d`)
        some ((n : Rat) + mkRat (m : Int) (10 ^ b.length))
      | _, _ => none
    | _ => none
  if s.startsWith ("-") then (core (s.drop 1)).map (fun q => -q)
  else if s.startsWith ("+") then core (s.drop 1)
  else core s

/-- Model of the textual datetime parser used by `pd.to_datetime` on a
single string: accepts ISO-like `YYYY-MM-DD` dates and returns epoch
seconds (a simplified but executable stand-in for the library parser; no
verified claim depends on which concrete strings parse). -/
def parseDate (s : String) : Option Rat :=
  match (s.trim.splitOn ("-")).map (fun t =>
      if t.length > 0 && t.all Char.isDigit then some t.toNat! else none) with
  | [some y, some m, some d] =>
    if 1 ≤ m && m ≤ 12 && 1 ≤ d && d ≤ 31 then
      some ((((y * 372 + m * 31 + d : Nat) : Int) : Rat) * 86400)
    else none
  | _ => none

/-- Physical storage dtypes distinguished by the source: the numpy dtypes
plus the pandas nullable extension dtypes produced by `convert_dtypes`. -/
inductive Dtype where
  | int64          -- np.int64
  | nullableInt    -- pd.Int64Dtype
  | float64        -- np.float64
  | nullableFloat  -- pd.Float64Dtype
  | complex128     -- np.complex128
  | npBool         -- np.bool_
  | nullableBool   -- pd.BooleanDtype
  | stringDt       -- pd.StringDtype
  | datetime64     -- np.datetime64[ns]
  | timedelta64    -- np.timedelta64[ns]
  | object         -- np.dtype("O")
deriving DecidableEq, Repr

/-- A pandas Series: physical dtype plus cells. -/
structure Series where
  dtype : Dtype
  values : List Val
deriving DecidableEq, Repr

/-- The non-missing cells (`series.dropna()`). -/
def dropNull (vs : List Val) : List Val := vs.filter (fun v => !v.isNull)

/-- Which sets the schema-mismatch message of `Stats.__init__` names
(missing and extra together, or only the nonempty one). -/
inductive SchemaReport where
  | bothSets (missing extra : Finset String)
  | missingOnly (missing : Finset String)
  | extraOnly (extra : Finset String)
deriving DecidableEq

/-- Structured model of the exceptions raised by the embedded code: each
constructor stands for one `raise` site (or Python-level error) and carries
the variable parts of its message. -/
inductive PyErr where
  | probeValueError        -- ValueError() raised by to_integer/to_float probes
  | attributeError         -- Python AttributeError (missing method/attribute)
  | pyTypeError            -- Python TypeError from a scalar operation
  | parseValueError        -- ValueError from int()/float()/complex() parsing
  | keyError               -- missing key in CONVERSIONS
  | badSeriesDtype         -- get_series_dtype fallthrough TypeError
  | lossy (target : Atomic) (head : List Val)    -- do_coercion ValueError
  | lossyTop (target : Atomic) (head : List Val) -- coerce_dtypes series wrapper
  | lossyTopCol (col : String) (target : Atomic) (head : List Val)
  | unexpectedKwarg (kw : String)  -- TypeError binding **kwargs to coerce_dtypes
  | seriesTypespecTypeError        -- coerce_dtypes: series + non-type typespec
  | frameTypespecTypeError         -- coerce_dtypes: dataframe + non-dict typespec
  | columnsMismatch (report : SchemaReport)  -- Stats.__init__ column-set ValueError
  | columnTypeMismatch (col : String)        -- Stats.__init__ dtype TypeError
  | columnHasNA (col : String)               -- Stats.__init__ missing-value ValueError
  | badVideoId             -- add_row video_id ValueError
  | futureTimestamp        -- add_row timestamp ValueError
  | negativeViews          -- add_row views ValueError
  | ratingOutOfRange       -- add_row rating ValueError
  | negativeField (f : String)  -- add_row likes/dislikes ValueError
  | duplicateRow (vid : String) (ts : Rat)  -- add_row duplicate ValueError
  | zeroDivisionError      -- Python ZeroDivisionError from the rating derivation
  | indexError             -- iloc positional lookup out of range
  | astypeError (col : String)  -- pandas astype failure
  | missingTypespecArg     -- TypeError: missing required positional argument
deriving DecidableEq

namespace Val

def isIntV : Val → Bool | vInt _ => true | _ => false

def isFloatV : Val → Bool | vFloat _ => true | _ => false

def isComplexV : Val → Bool | vComplex _ _ => true | _ => false

def isStrV : Val → Bool | vStr _ => true | _ => false

def isBoolV : Val → Bool | vBool _ => true | _ => false

def isDatetimeV : Val → Bool | vDatetime _ => true | _ => false

def isTimedeltaV : Val → Bool | vTimedelta _ => true | _ => false

/-- Cast to a float64 cell (numpy upcasting when a list holding ints,
floats and missing markers is materialized as a float64 array). -/
def toFloatCell : Val → Val
  | vInt n => vFloat (n : Rat)
  | vFloat q => vFloat q
  | vBool b => vFloat (if b then 1 else 0)
  | v => if v.isNull then vNan else v

/-- Cast to a complex128 cell. -/
def toComplexCell : Val → Val
  | vInt n => vComplex (n : Rat) 0
  | vFloat q => vComplex q 0
  | vComplex re im => vComplex re im
  | vBool b => vComplex (if b then 1 else 0) 0
  | v => if v.isNull then vNan else v

/-- Cast to a nullable-Int64 cell (only used in contexts where every
non-missing value is integral). -/
def toIntCell : Val → Val
  | vInt n => vInt n
  | vFloat q => vInt (ratTrunc q)
  | vComplex re _ => vInt (ratTrunc re)
  | vBool b => vInt (if b then 1 else 0)
  | _ => vNA

end Val

/-- Model of `pandas.Series(list_of_results)` construction as performed by
`Series.apply`: infer the narrowest physical dtype for the result cells and
cast them accordingly.  The empty case is unreachable under the theorems
below (they assume a nonempty column). -/
def mkSeries (vs : List Val) : Series :=
  if vs.isEmpty then ⟨.object, vs⟩
  else if vs.all Val.isIntV then ⟨.int64, vs⟩
  else if vs.all (fun v => v.isIntV || v.isFloatV || v == .vNan || v == .vNone) then
    ⟨.float64, vs.map Val.toFloatCell⟩
  else if vs.all (fun v =>
      v.isIntV || v.isFloatV || v.isComplexV || v == .vNan || v == .vNone) then
    ⟨.complex128, vs.map Val.toComplexCell⟩
  else if vs.all Val.isBoolV then ⟨.npBool, vs⟩
  else if vs.all (fun v => v.isDatetimeV || v == .vNaT || v == .vNone) then
    ⟨.datetime64, vs.map (fun v => if v.isNull then .vNaT else v)⟩
  else if (vs.all (fun v => v.isTimedeltaV || v == .vNaT || v == .vNone)
      && vs.any Val.isTimedeltaV) then
    ⟨.timedelta64, vs.map (fun v => if v.isNull then .vNaT else v)⟩
  else ⟨.object, vs⟩

/-- `pandas.api.types.is_integer_dtype`. -/
def is_integer_dtype : Dtype → Bool
  | .int64 | .nullableInt => true
  | _ => false

/-- `pandas.api.types.is_float_dtype`. -/
def is_float_dtype : Dtype → Bool
  | .float64 | .nullableFloat => true
  | _ => false

/-- `pandas.api.types.is_complex_dtype`. -/
def is_complex_dtype : Dtype → Bool
  | .complex128 => true
  | _ => false

/-- `pandas.api.types.is_string_dtype` (notoriously lax: also true for
plain object storage). -/
def is_string_dtype : Dtype → Bool
  | .stringDt | .object => true
  | _ => false

/-- `pandas.api.types.is_bool_dtype`. -/
def is_bool_dtype : Dtype → Bool
  | .npBool | .nullableBool => true
  | _ => false

/-- `pandas.api.types.is_datetime64_any_dtype`. -/
def is_datetime64_any_dtype : Dtype → Bool
  | .datetime64 => true
  | _ => false

/-- `pandas.api.types.is_timedelta64_dtype`. -/
def is_timedelta64_dtype : Dtype → Bool
  | .timedelta64 => true
  | _ => false

/-- `pandas.api.types.is_object_dtype`. -/
def is_object_dtype : Dtype → Bool
  | .object => true
  | _ => false

/-- `pandas.api.types.is_numeric_dtype` (integer, float, complex and
boolean dtypes all count as numeric). -/
def is_numeric_dtype : Dtype → Bool
  | .int64 | .nullableInt | .float64 | .nullableFloat | .complex128
  | .npBool | .nullableBool => true
  | _ => false

/-- The object-dtype arm of pandas `Series.convert_dtypes` (which first
soft-converts with `infer_objects()` and then picks the best nullable
dtype): homogeneous object columns are materialized as their concrete
dtype, all-missing and mixed columns stay object. -/
def convertObjectCells (vs : List Val) : Series :=
  let nn := dropNull vs
  if nn.isEmpty then ⟨.object, vs⟩
  else if nn.all Val.isIntV then ⟨.nullableInt, vs.map Val.toIntCell⟩
  else if nn.all (fun v => v.isIntV || v.isFloatV) then
    if nn.all (fun v => match v with
        | .vInt _ => true | .vFloat q => ratIsInt q | _ => false) then
      ⟨.nullableInt, vs.map Val.toIntCell⟩
    else ⟨.nullableFloat, vs.map (fun v => if v.isNull then .vNA else v.toFloatCell)⟩
  else if nn.all (fun v => v.isIntV || v.isFloatV || v.isComplexV) then
    ⟨.complex128, vs.map Val.toComplexCell⟩
  else if nn.all Val.isStrV then
    ⟨.stringDt, vs.map (fun v => if v.isNull then .vNA else v)⟩
  else if nn.all Val.isBoolV then
    ⟨.nullableBool, vs.map (fun v => if v.isNull then .vNA else v)⟩
  else if nn.all Val.isDatetimeV then
    ⟨.datetime64, vs.map (fun v => if v.isNull then .vNaT else v)⟩
  else if nn.all Val.isTimedeltaV then
    ⟨.timedelta64, vs.map (fun v => if v.isNull then .vNaT else v)⟩
  else ⟨.object, vs⟩

/-- Model of pandas `Series.convert_dtypes` (pandas 1.x): numpy dtypes are
converted to the best nullable extension dtype — notably a float column
whose non-missing values are all integral (vacuously, an all-missing one)
becomes Int64 — while extension dtypes and datetime/timedelta storage pass
through unchanged. -/
def Series.convertDtypes (s : Series) : Series :=
  match s.dtype with
  | .int64 => ⟨.nullableInt, s.values⟩
  | .float64 =>
    if (dropNull s.values).all (fun v =>
        match v with | .vFloat q => ratIsInt q | _ => false) then
      ⟨.nullableInt, s.values.map Val.toIntCell⟩
    else ⟨.nullableFloat, s.values.map (fun v => if v.isNull then .vNA else v)⟩
  | .complex128 =>
    if (dropNull s.values).all (fun v =>
        match v with | .vComplex re im => im = 0 && ratIsInt re | _ => false) then
      ⟨.nullableInt, s.values.map Val.toIntCell⟩
    else s
  | .npBool => ⟨.nullableBool, s.values⟩
  | .object => convertObjectCells s.values
  | _ => s

/-- Does `pd.to_datetime(series, utc=True)` succeed?  Missing markers pass;
datetimes, datelike text and numeric epochs parse; anything else raises. -/
def to_datetime_ok (vs : List Val) : Bool :=
  vs.all (fun v => v.isNull ||
    match v with
    | .vDatetime _ => true
    | .vStr s => (parseDate s).isSome
    | .vInt _ | .vFloat _ => true
    | _ => false)

/-- The `to_integer` probe of `get_series_dtype`'s complex branch applied
to one element: `np.nan` for missing values, success when the imaginary
part is zero and the real part integral, `ValueError` otherwise
(an `AttributeError` for cells without `imag`/`real`). -/
def toIntegerProbe (v : Val) : Except PyErr Unit :=
  if v.isNull then .ok ()
  else match v with
    | .vComplex re im =>
      if im = 0 && ratIsInt re then .ok () else .error .probeValueError
    | .vInt _ => .ok ()
    | .vFloat q => if ratIsInt q then .ok () else .error .probeValueError
    | .vBool _ => .ok ()
    | _ => .error .attributeError

/-- The `to_float` probe of `get_series_dtype`'s complex branch. -/
def toFloatProbe (v : Val) : Except PyErr Unit :=
  if v.isNull then .ok ()
  else match v with
    | .vComplex _ im => if im = 0 then .ok () else .error .probeValueError
    | .vInt _ | .vFloat _ | .vBool _ => .ok ()
    | _ => .error .attributeError

/-- First exception raised by an elementwise `Series.apply`, in order. -/
def firstErr (f : Val → Except PyErr Unit) : List Val → Option PyErr
  | [] => none
  | v :: vs => match f v with
    | .ok _ => firstErr f vs
    | .error e => some e

/-- `datatube.dtype.get_series_dtype`: classify a series into one of the
atomic types (complex storage is narrowed elementwise; other storage is
normalized with `convert_dtypes` and then dispatched on physical dtype,
with object columns reclassified as datetime when their values parse). -/
def get_series_dtype (s : Series) : Except PyErr Atomic :=
  if is_complex_dtype s.dtype then
    match firstErr toIntegerProbe s.values with
    | none => .ok .int
    | some e =>
      if e = .probeValueError then
        match firstErr toFloatProbe s.values with
        | none => .ok .float
        | some e2 =>
          if e2 = .probeValueError then .ok .complex else .error e2
      else .error e
  else
    let t := s.convertDtypes
    if is_object_dtype t.dtype then
      if (dropNull t.values).isEmpty then .ok .object
      else if to_datetime_ok t.values then .ok .datetime
      else .ok .object
    else if is_integer_dtype t.dtype then .ok .int
    else if is_float_dtype t.dtype then .ok .float
    else if is_string_dtype t.dtype then .ok .str
    else if is_bool_dtype t.dtype then .ok .bool
    else if is_datetime64_any_dtype t.dtype then .ok .datetime
    else if is_timedelta64_dtype t.dtype then .ok .timedelta
    else .error .badSeriesDtype

/-- Python `int(x)` on a non-missing scalar. -/
def pyInt : Val → Except PyErr Int
  | .vInt n => .ok n
  | .vFloat q => .ok (ratTrunc q)
  | .vBool b => .ok (if b then 1 else 0)
  | .vStr s =>
    match parsePyInt s.trim with
    | some n => .ok n
    | none => .error .parseValueError
  | _ => .error .pyTypeError

/-- Python `float(x)` on a non-missing scalar. -/
def pyFloat : Val → Except PyErr Rat
  | .vInt n => .ok (n : Rat)
  | .vFloat q => .ok q
  | .vBool b => .ok (if b then 1 else 0)
  | .vStr s =>
    match parsePyFloat s.trim with
    | some q => .ok q
    | none => .error .parseValueError
  | _ => .error .pyTypeError

/-- Python `complex(x, 0)`. -/
def pyComplex2 : Val → Except PyErr Val
  | .vInt n => .ok (.vComplex (n : Rat) 0)
  | .vFloat q => .ok (.vComplex q 0)
  | .vBool b => .ok (.vComplex (if b then 1 else 0) 0)
  | .vComplex re im => .ok (.vComplex re im)
  | _ => .error .pyTypeError

/-- Python `complex(x)` (single argument; complex-literal text is modelled
as a plain numeric literal — no verified claim parses complex text). -/
def pyComplex1 : Val → Except PyErr Val
  | .vStr s =>
    match parsePyFloat s.trim with
    | some q => .ok (.vComplex q 0)
    | none => .error .parseValueError
  | x => pyComplex2 x

/-- Python truthiness `bool(x)` on a non-missing scalar. -/
def pyBool : Val → Bool
  | .vInt n => n != 0
  | .vFloat q => q != 0
  | .vComplex re im => re != 0 || im != 0
  | .vStr s => s.length != 0
  | .vBool b => b
  | _ => true

/-- Python `str(x)` rendering (simplified textual form; no verified claim
inspects rendered text, only nullity and storage kind). -/
def pyStr : Val → String
  | .vInt n => toString n
  | .vFloat q => toString q
  | .vComplex re im => toString re ++ ("+") ++ toString im ++ ("j")
  | .vStr s => s
  | .vBool b => if b then ("True") else ("False")
  | .vDatetime t => toString t
  | .vTimedelta d => toString d
  | _ => ("")

/-- `pd.Timestamp.fromtimestamp(x, tz=timezone.utc)`: numeric epoch
seconds only. -/
def pyFromtimestamp : Val → Except PyErr Val
  | .vInt n => .ok (.vDatetime (n : Rat))
  | .vFloat q => .ok (.vDatetime q)
  | .vBool b => .ok (.vDatetime (if b then 1 else 0))
  | _ => .error .pyTypeError

/-- `pd.Timedelta(seconds=x)`: numeric seconds only. -/
def pyTimedeltaSeconds : Val → Except PyErr Val
  | .vInt n => .ok (.vTimedelta (n : Rat))
  | .vFloat q => .ok (.vTimedelta q)
  | .vBool b => .ok (.vTimedelta (if b then 1 else 0))
  | _ => .error .pyTypeError

/-- Python attribute `x.real`. -/
def pyReal : Val → Except PyErr Val
  | .vInt n => .ok (.vInt n)
  | .vFloat q => .ok (.vFloat q)
  | .vBool b => .ok (.vInt (if b then 1 else 0))
  | .vComplex re _ => .ok (.vFloat re)
  | _ => .error .attributeError

/-- Python attribute `x.imag`. -/
def pyImag : Val → Except PyErr Rat
  | .vInt _ | .vFloat _ | .vBool _ => .ok 0
  | .vComplex _ im => .ok im
  | _ => .error .attributeError

/-- Python method `x.timestamp()` (datetimes only). -/
def pyTimestampOf : Val → Except PyErr Rat
  | .vDatetime t => .ok t
  | _ => .error .attributeError

/-- Python method `x.total_seconds()` (timedeltas only). -/
def pyTotalSeconds : Val → Except PyErr Rat
  | .vTimedelta d => .ok d
  | _ => .error .attributeError

/-- Python method `x.strip()` (strings only). -/
def pyStrip : Val → Except PyErr String
  | .vStr s => .ok s.trim
  | _ => .error .attributeError

/-- Result of one `CONVERSIONS` lambda: a converted value, the `ValueError`
sentinel (the class object returned to flag information loss), or a raised
exception. -/
inductive CRes where
  | val (v : Val)
  | sentinel
  | exn (e : PyErr)
deriving DecidableEq

/-- Lift a fallible scalar operation into a `CRes`. -/
def resOf : Except PyErr Val → CRes
  | .ok v => .val v
  | .error e => .exn e

/-- The `CONVERSIONS` table of `datatube/dtype.py`, transcribed lambda by
lambda (missing markers first, then the conversion, `CRes.sentinel` where
the source returns the `ValueError` class). -/
def conversions : Atomic → Atomic → Option (Val → CRes)
  | .int, .float => some (fun x =>
      if x.isNull then .val .vNan else resOf ((pyFloat x).map Val.vFloat))
  | .int, .complex => some (fun x =>
      if x.isNull then .val .vNan else resOf (pyComplex2 x))
  | .int, .str => some (fun x =>
      if x.isNull then .val .vNA
      else resOf ((pyInt x).map (fun n => Val.vStr (toString n))))
  | .int, .bool => some (fun x =>
      if x.isNull then .val .vNA
      else
        let b := pyBool x
        if (Val.vBool b).pyEq x then .val (.vBool b) else .sentinel)
  | .int, .datetime => some (fun x =>
      if x.isNull then .val .vNaT else resOf (pyFromtimestamp x))
  | .int, .timedelta => some (fun x =>
      if x.isNull then .val .vNaT else resOf (pyTimedeltaSeconds x))
  | .float, .int => some (fun x =>
      if x.isNull then .val .vNan
      else match pyInt x with
        | .error e => .exn e
        | .ok n => if (Val.vInt n).pyEq x then .val (.vInt n) else .sentinel)
  | .float, .complex => some (fun x =>
      if x.isNull then .val .vNan else resOf (pyComplex2 x))
  | .float, .str => some (fun x =>
      if x.isNull then .val .vNA else .val (.vStr (pyStr x)))
  | .float, .bool => some (fun x =>
      if x.isNull then .val .vNA
      else
        let b := pyBool x
        if (Val.vBool b).pyEq x then .val (.vBool b) else .sentinel)
  | .float, .datetime => some (fun x =>
      if x.isNull then .val .vNaT else resOf (pyFromtimestamp x))
  | .float, .timedelta => some (fun x =>
      if x.isNull then .val .vNaT else resOf (pyTimedeltaSeconds x))
  | .complex, .int => some (fun x =>
      if x.isNull then .val .vNan
      else match pyReal x with
        | .error e => .exn e
        | .ok re =>
          match pyInt re with
          | .error e => .exn e
          | .ok n => if (Val.vInt n).pyEq x then .val (.vInt n) else .sentinel)
  | .complex, .float => some (fun x =>
      if x.isNull then .val .vNan
      else match pyReal x with
        | .error e => .exn e
        | .ok re => if re.pyEq x then .val re else .sentinel)
  | .complex, .str => some (fun x =>
      if x.isNull then .val .vNA else .val (.vStr (pyStr x)))
  | .complex, .bool => some (fun x =>
      if x.isNull then .val .vNA
      else match pyReal x with
        | .error e => .exn e
        | .ok re =>
          let b := pyBool re
          if (Val.vBool b).pyEq x then .val (.vBool b) else .sentinel)
  | .complex, .datetime => some (fun x =>
      if x.isNull then .val .vNaT
      else match pyImag x with
        | .error e => .exn e
        | .ok im =>
          if im = 0 then
            match pyReal x with
            | .error e => .exn e
            | .ok re => resOf (pyFromtimestamp re)
          else .sentinel)
  | .complex, .timedelta => some (fun x =>
      if x.isNull then .val .vNaT
      else match pyImag x with
        | .error e => .exn e
        | .ok im =>
          if im = 0 then
            match pyReal x with
            | .error e => .exn e
            | .ok re => resOf (pyTimedeltaSeconds re)
          else .sentinel)
  | .str, .int => some (fun x =>
      if x.isNull then .val .vNan
      else match pyStrip x with
        | .error e => .exn e
        | .ok s =>
          match parsePyInt s with
          | some n => .val (.vInt n)
          | none => .exn .parseValueError)
  | .str, .float => some (fun x =>
      if x.isNull then .val .vNan
      else match pyStrip x with
        | .error e => .exn e
        | .ok s =>
          match parsePyFloat s with
          | some q => .val (.vFloat q)
          | none => .exn .parseValueError)
  | .str, .complex => some (fun x =>
      if x.isNull then .val .vNan
      else match pyStrip x with
        | .error e => .exn e
        | .ok s =>
          match parsePyFloat s with
          | some q => .val (.vComplex q 0)
          | none => .exn .parseValueError)
  | .str, .bool => some (fun x =>
      if x.isNull then .val .vNA
      else match pyStrip x with
        | .error e => .exn e
        | .ok s =>
          if s.toLower = ("true") || s.toLower = ("t") then .val (.vBool true)
          else if s.toLower = ("false") || s.toLower = ("f") then .val (.vBool false)
          else .sentinel)
  | .str, .timedelta => some (fun x =>
      if x.isNull then .val .vNaT
      else match pyStrip x with
        | .error e => .exn e
        | .ok s =>
          match parsePyFloat s with
          | some q => .val (.vTimedelta q)
          | none => .exn .parseValueError)
  | .bool, .int => some (fun x =>
      if x.isNull then .val .vNan else resOf ((pyInt x).map Val.vInt))
  | .bool, .float => some (fun x =>
      if x.isNull then .val .vNan else resOf ((pyFloat x).map Val.vFloat))
  | .bool, .complex => some (fun x =>
      if x.isNull then .val .vNan else resOf (pyComplex2 x))
  | .bool, .str => some (fun x =>
      if x.isNull then .val .vNan else .val (.vStr (pyStr x)))
  | .bool, .datetime => some (fun x =>
      if x.isNull then .val .vNaT else resOf (pyFromtimestamp x))
  | .bool, .timedelta => some (fun x =>
      if x.isNull then .val .vNaT else resOf (pyTimedeltaSeconds x))
  | .datetime, .int => some (fun x =>
      if x.isNull then .val .vNan
      else match pyTimestampOf x with
        | .error e => .exn e
        | .ok t => if ratIsInt t then .val (.vInt (ratTrunc t)) else .sentinel)
  | .datetime, .float => some (fun x =>
      if x.isNull then .val .vNan
      else resOf ((pyTimestampOf x).map Val.vFloat))
  | .datetime, .complex => some (fun x =>
      if x.isNull then .val .vNan
      else resOf ((pyTimestampOf x).map (fun t => Val.vComplex t 0)))
  | .datetime, .str => some (fun x =>
      if x.isNull then .val .vNA
      else resOf ((pyTimestampOf x).map (fun t => Val.vStr (toString t))))
  | .datetime, .bool => some (fun x =>
      if x.isNull then .val .vNA
      else match pyTimestampOf x with
        | .error e => .exn e
        | .ok t =>
          let b : Bool := t != 0
          if ((if b then 1 else 0 : Rat)) = t then .val (.vBool b) else .sentinel)
  | .datetime, .timedelta => some (fun x =>
      if x.isNull then .val .vNaT
      else resOf ((pyTimestampOf x).map Val.vTimedelta))
  | .timedelta, .int => some (fun x =>
      if x.isNull then .val .vNan
      else match pyTotalSeconds x with
        | .error e => .exn e
        | .ok d => if ratIsInt d then .val (.vInt (ratTrunc d)) else .sentinel)
  | .timedelta, .float => some (fun x =>
      if x.isNull then .val .vNan
      else resOf ((pyTotalSeconds x).map Val.vFloat))
  | .timedelta, .complex => some (fun x =>
      if x.isNull then .val .vNan
      else resOf ((pyTotalSeconds x).map (fun d => Val.vComplex d 0)))
  | .timedelta, .str => some (fun x =>
      if x.isNull then .val .vNA else .val (.vStr (pyStr x)))
  | .timedelta, .bool => some (fun x =>
      if x.isNull then .val .vNA
      else match pyTotalSeconds x with
        | .error e => .exn e
        | .ok d =>
          let b : Bool := d != 0
          if ((if b then 1 else 0 : Rat)) = d then .val (.vBool b) else .sentinel)
  | .timedelta, .datetime => some (fun x =>
      if x.isNull then .val .vNaT
      else match pyTotalSeconds x with
        | .error e => .exn e
        | .ok d => resOf (pyFromtimestamp (.vFloat d)))
  | .object, .int => some (fun x =>
      if x.isNull then .val .vNan else resOf ((pyInt x).map Val.vInt))
  | .object, .float => some (fun x =>
      if x.isNull then .val .vNan else resOf ((pyFloat x).map Val.vFloat))
  | .object, .complex => some (fun x =>
      if x.isNull then .val .vNan else resOf (pyComplex1 x))
  | .object, .str => some (fun x =>
      if x.isNull then .val .vNA else .val (.vStr (pyStr x)))
  | .object, .bool => some (fun x =>
      if x.isNull then .val .vNA else .val (.vBool (pyBool x)))
  | .object, .datetime => some (fun x =>
      -- `x.to_datetime()`: no modelled scalar has this method (source TODO)
      if x.isNull then .val .vNaT else .exn .attributeError)
  | .object, .timedelta => some (fun x =>
      if x.isNull then .val .vNaT else .exn .attributeError)
  | _, _ => none

/-- First five cells of a column (`column.head()`). -/
def head5 (s : Series) : List Val := s.values.take 5

/-- `_coerce_column.do_coercion`: one element through the conversion
lambda; the `ValueError` sentinel becomes a raised error naming the target
type and the head of the offending column. -/
def do_coercion (f : Val → CRes) (to_type : Atomic) (column : Series) (x : Val) :
    Except PyErr Val :=
  match f x with
  | .val r => .ok r
  | .sentinel => .error (.lossy to_type (head5 column))
  | .exn e => .error e

/-- Elementwise traversal in series order, first exception aborting: the
evaluation order of `Series.apply` and of pandas' columnwise parsers. -/
def exMap (f : Val → Except PyErr Val) : List Val → Except PyErr (List Val)
  | [] => .ok []
  | v :: vs =>
    match f v with
    | .error e => .error e
    | .ok r =>
      match exMap f vs with
      | .error e => .error e
      | .ok rs => .ok (r :: rs)

/-- `column.apply(g)`: map elementwise, then build a fresh series with
inferred dtype. -/
def applySeries (g : Val → Except PyErr Val) (s : Series) : Except PyErr Series :=
  match exMap g s.values with
  | .error e => .error e
  | .ok rs => .ok (mkSeries rs)

/-- `pd.to_datetime(column, infer_datetime_format=True)` on a string
column: parse each non-missing value, producing datetime64 storage. -/
def pdToDatetime (s : Series) : Except PyErr Series :=
  match exMap (fun v =>
    if v.isNull then .ok Val.vNaT
    else match v with
      | .vDatetime t => .ok (Val.vDatetime t)
      | .vStr str =>
        match parseDate str with
        | some t => .ok (Val.vDatetime t)
        | none => .error .parseValueError
      | .vInt n => .ok (Val.vDatetime (n : Rat))
      | .vFloat q => .ok (Val.vDatetime q)
      | _ => .error .parseValueError) s.values with
  | .error e => .error e
  | .ok rs => .ok ⟨.datetime64, rs⟩

/-- `pd.to_timedelta(column)` on a string column (interval text modelled
as plain seconds; no verified claim parses interval text). -/
def pdToTimedelta (s : Series) : Except PyErr Series :=
  match exMap (fun v =>
    if v.isNull then .ok Val.vNaT
    else match v with
      | .vTimedelta d => .ok (Val.vTimedelta d)
      | .vStr str =>
        match parsePyFloat str.trim with
        | some d => .ok (Val.vTimedelta d)
        | none => .error .parseValueError
      | _ => .error .parseValueError) s.values with
  | .error e => .error e
  | .ok rs => .ok ⟨.timedelta64, rs⟩

/-- `datatube.dtype._coerce_column`: coercion to `object` reinterprets the
storage; identity coercion returns a copy; string sources use the library
parsers for datetime/timedelta targets; every other pair goes through the
conversion table elementwise. -/
def coerce_column (column : Series) (to_type : Atomic) : Except PyErr Series :=
  if to_type = .object then .ok ⟨.object, column.values⟩
  else
    match get_series_dtype column with
    | .error e => .error e
    | .ok from_type =>
      if from_type = to_type then .ok column
      else if from_type = .str && to_type = .datetime then pdToDatetime column
      else if from_type = .str && to_type = .timedelta then pdToTimedelta column
      else
        match conversions from_type to_type with
        | none => .error .keyError
        | some f => applySeries (do_coercion f to_type column) column

/-- Which modelled exceptions are Python `ValueError`s (the class the
`coerce_dtypes` wrappers catch and re-raise). -/
def isValueError : PyErr → Bool
  | .probeValueError | .parseValueError | .lossy _ _ | .lossyTop _ _
  | .lossyTopCol _ _ _ | .columnsMismatch _ | .columnHasNA _ | .badVideoId
  | .futureTimestamp | .negativeViews | .ratingOutOfRange | .negativeField _
  | .duplicateRow _ _ => true
  | _ => false

/-- `datatube.dtype.coerce_dtypes` on a series with an atomic typespec:
delegate to `_coerce_column`, re-raising any `ValueError` with a message
naming the typespec and the head of the series. -/
def coerce_dtypes_series (data : Series) (typespec : Atomic) : Except PyErr Series :=
  match coerce_column data typespec with
  | .ok r => .ok r
  | .error e =>
    if isValueError e then .error (.lossyTop typespec (head5 data)) else .error e

/-- A dataframe: ordered columns with unique names. -/
abbrev Table := List (String × Series)

/-- `data[col_name]` (first matching column; `KeyError` when absent is
modelled at the call sites). -/
def lookupCol (data : Table) (name : String) : Option Series :=
  (data.find? (fun p => p.1 = name)).map (fun p => p.2)

/-- `datatube.dtype.check_dtypes` on a dataframe with `typespec=None`: the
per-column inferred type map, in column order. -/
def check_dtypes_frame (data : Table) : Except PyErr (List (String × Atomic)) :=
  data.mapM (fun p => do
    let t ← get_series_dtype p.2
    return (p.1, t))

/-- `datatube.dtype.coerce_dtypes` on a dataframe with a dict typespec:
coerce each named column, wrapping `ValueError`s with the column name,
target type and column head; the result holds the coerced columns in
typespec order (`pd.concat(result, axis=1)`). -/
def coerce_dtypes_frame (data : Table) (typespec : List (String × Atomic)) :
    Except PyErr Table :=
  typespec.mapM (fun p =>
    match lookupCol data p.1 with
    | none => .error .keyError
    | some col =>
      match coerce_column col p.2 with
      | .ok r => .ok (p.1, r)
      | .error e =>
        if isValueError e then .error (.lossyTopCol p.1 p.2 (head5 col))
        else .error e)

/-- Parameter names of `coerce_dtypes`'s signature. -/
def coerceDtypesParams : List String :=
  [("typespec"), ("downcast"), ("signed"), ("datetime_format"), ("object_method")]

/-- `datatube.dtype.convert_dtypes`: the source is
`coerce_dtypes(data, **check_dtypes(data))`, so the inferred column-name →
type map is expanded into keyword arguments of `coerce_dtypes`.  Binding
raises a TypeError at the first column name that is not a parameter name;
if every column is named after a parameter but none is named `typespec`,
binding fails for the missing required argument; and if a column is named
`typespec`, its bound value is an atomic type, which the dataframe branch
of `coerce_dtypes` rejects with its non-dict-typespec TypeError. -/
def convert_dtypes (data : Table) : Except PyErr Table := do
  let kwargs ← check_dtypes_frame data
  match kwargs.find? (fun p => !coerceDtypesParams.contains p.1) with
  | some p => .error (.unexpectedKwarg p.1)
  | none =>
    match kwargs.find? (fun p => p.1 = ("typespec")) with
    | none => .error .missingTypespecArg
    | some _ => .error .frameTypespecTypeError

/-! ### `datatube/stats.py` -/

/-- The typespec vocabulary of `datatube.stats` (keys of its
`dtype_lookup` tables): atomic classes plus the `"numeric"` string. -/
inductive Tsp where
  | tInt | tFloat | tNumeric | tStr | tBool | tDatetime | tTimedelta
deriving DecidableEq, Repr

/-- `datatube.stats.check_dtypes.dtype_lookup`: the `pandas.api.types`
predicate chosen for each typespec, evaluated on the physical dtype (the
model carries no timezone, so `is_datetime64_dtype` coincides with the
any-datetime predicate here). -/
def statsDtypeLookup : Tsp → Dtype → Bool
  | .tInt, d => is_integer_dtype d
  | .tFloat, d => is_float_dtype d
  | .tNumeric, d => is_numeric_dtype d
  | .tStr, d => is_string_dtype d
  | .tBool, d => is_bool_dtype d
  | .tDatetime, d => is_datetime64_any_dtype d
  | .tTimedelta, d => is_timedelta64_dtype d

/-- One iteration of the loop in `datatube.stats.check_dtypes` for a
single keyword `col_name=typespec`: the column is rejected only when the
typecheck fails on the converted column AND the column has at least one
non-missing value. -/
def stats_check_dtypes_one (col : Series) (typespec : Tsp) : Bool :=
  let column := col.convertDtypes
  !(!statsDtypeLookup typespec column.dtype
      && (dropNull column.values).length > 0)

/-- `datatube.stats.check_dtypes` over its keyword arguments, in order
(`data[col_name]` with an absent name raises `KeyError`). -/
def stats_check_dtypes (data : Table) : List (String × Tsp) → Except PyErr Bool
  | [] => .ok true
  | (name, t) :: rest =>
    match lookupCol data name with
    | none => .error .keyError
    | some col =>
      if !stats_check_dtypes_one col t then .ok false
      else stats_check_dtypes data rest

/-- `datatube.stats.coerce_dtypes.dtype_lookup`: target storage per
typespec. -/
def statsTargetDtype : Tsp → Dtype
  | .tInt => .nullableInt
  | .tFloat => .nullableFloat
  | .tNumeric => .nullableFloat
  | .tStr => .stringDt
  | .tBool => .nullableBool
  | .tDatetime => .datetime64
  | .tTimedelta => .timedelta64

/-- `series.astype(dtype)` for the storages used by
`datatube.stats.coerce_dtypes` (safe casting: a lossy numeric cast
raises). -/
def astypeCell (d : Dtype) (v : Val) : Except PyErr Val :=
  match d with
  | .nullableInt =>
    if v.isNull then .ok .vNA
    else match v with
      | .vInt n => .ok (.vInt n)
      | .vFloat q =>
        if ratIsInt q then .ok (.vInt (ratTrunc q)) else .error .pyTypeError
      | .vBool b => .ok (.vInt (if b then 1 else 0))
      | .vStr s =>
        match parsePyInt s.trim with
        | some n => .ok (.vInt n)
        | none => .error .pyTypeError
      | _ => .error .pyTypeError
  | .nullableFloat =>
    if v.isNull then .ok .vNA
    else match v with
      | .vInt n => .ok (.vFloat (n : Rat))
      | .vFloat q => .ok (.vFloat q)
      | .vBool b => .ok (.vFloat (if b then 1 else 0))
      | .vStr s =>
        match parsePyFloat s.trim with
        | some q => .ok (.vFloat q)
        | none => .error .pyTypeError
      | _ => .error .pyTypeError
  | .stringDt => if v.isNull then .ok .vNA else .ok (.vStr (pyStr v))
  | .nullableBool =>
    if v.isNull then .ok .vNA
    else match v with
      | .vBool b => .ok (.vBool b)
      | .vInt n =>
        if n = 0 || n = 1 then .ok (.vBool (n == 1)) else .error .pyTypeError
      | _ => .error .pyTypeError
  | .datetime64 =>
    if v.isNull then .ok .vNaT
    else match v with
      | .vDatetime t => .ok (.vDatetime t)
      | .vStr s =>
        match parseDate s with
        | some t => .ok (.vDatetime t)
        | none => .error .pyTypeError
      | _ => .error .pyTypeError
  | .timedelta64 =>
    if v.isNull then .ok .vNaT
    else match v with
      | .vTimedelta t => .ok (.vTimedelta t)
      | _ => .error .pyTypeError
  | _ => .error .pyTypeError

/-- Cast a whole column with `astype`. -/
def seriesAstype (s : Series) (d : Dtype) : Except PyErr Series :=
  match exMap (astypeCell d) s.values with
  | .error e => .error e
  | .ok vs => .ok ⟨d, vs⟩

/-- One column of `datatube.stats.coerce_dtypes`: astype when the column
is named by the keyword arguments, else leave it as copied. -/
def statsCoerceCol (kwargs : List (String × Tsp)) (p : String × Series) :
    Except PyErr (String × Series) :=
  match kwargs.find? (fun kv => kv.1 = p.1) with
  | none => .ok p
  | some kv =>
    match seriesAstype p.2 (statsTargetDtype kv.2) with
    | .error e => .error e
    | .ok s => .ok (p.1, s)

/-- `datatube.stats.coerce_dtypes`: copy the frame and astype each column
named by the keyword arguments (call sites pass exactly the frame's
columns, so the `KeyError` of an absent name is not modelled). -/
def stats_coerce_dtypes (data : Table) (kwargs : List (String × Tsp)) :
    Except PyErr Table :=
  match data with
  | [] => .ok []
  | p :: rest =>
    match statsCoerceCol kwargs p with
    | .error e => .error e
    | .ok q =>
      match stats_coerce_dtypes rest kwargs with
      | .error e => .error e
      | .ok qs => .ok (q :: qs)

/-- `Stats.__init__.expected_columns`: name, typespec, NA-allowed. -/
def expected_columns : List (String × Tsp × Bool) :=
  [(("video_id"), .tStr, false),
   (("timestamp"), .tDatetime, false),
   (("views"), .tInt, true),
   (("rating"), .tNumeric, true),
   (("likes"), .tInt, true),
   (("dislikes"), .tInt, true)]

/-- Canonical column order of the stats schema. -/
def expectedNames : List String := expected_columns.map (fun p => p.1)

/-- The schema-mismatch report built by `Stats.__init__`: both sets when
both discrepancies occur, otherwise only the nonempty one. -/
def schemaReportOf (missing extra : Finset String) : SchemaReport :=
  if missing.card > 0 && extra.card > 0 then .bothSets missing extra
  else if missing.card > 0 then .missingOnly missing
  else .extraOnly extra

/-- The per-column dtype/missing-value validation loop of
`Stats.__init__`.  The single-keyword `check_dtypes(data, **{name: ts})`
call is inlined: look the column up (`KeyError` when absent) and test it
once — `stats_check_dtypes_single` below proves the two forms agree. -/
def statsValidateCols (data : Table) :
    List (String × Tsp × Bool) → Except PyErr Unit
  | [] => .ok ()
  | (name, ts, naAllowed) :: rest =>
    match lookupCol data name with
    | none => .error .keyError
    | some col =>
      if !stats_check_dtypes_one col ts then .error (.columnTypeMismatch name)
      else if !naAllowed && col.values.any Val.isNull then
        .error (.columnHasNA name)
      else statsValidateCols data rest

/-- `data[list(expected_columns)]`: the columns in canonical order
(`KeyError` when a name is absent). -/
def reorderCols (data : Table) : List String → Except PyErr Table
  | [] => .ok []
  | n :: rest =>
    match lookupCol data n with
    | none => .error .keyError
    | some s =>
      match reorderCols data rest with
      | .error e => .error e
      | .ok t => .ok ((n, s) :: t)

/-- `data.columns` as a list of names. -/
def tableNames (data : Table) : List String := data.map (fun p => p.1)

/-- `Stats.__init__` with a dataframe argument: exact column-set check
(missing/extra reported per `schemaReportOf`), per-column type and
missing-value validation, then coercion to the expected storages with the
columns reordered canonically (`data[list(expected_columns)]`). -/
def stats_init (data : Table) : Except PyErr Table := do
  let names := tableNames data
  if names.toFinset ≠ expectedNames.toFinset then
    Except.error (.columnsMismatch (schemaReportOf
      (expectedNames.toFinset \ names.toFinset)
      (names.toFinset \ expectedNames.toFinset)))
  else
    match statsValidateCols data expected_columns with
    | .error e => .error e
    | .ok _ =>
      match stats_coerce_dtypes data
          (expected_columns.map (fun p => (p.1, p.2.1))) with
      | .error e => .error e
      | .ok coerced => reorderCols coerced expectedNames

/-- `datatube.check.is_video_id`: exactly 11 characters. -/
def is_video_id (s : String) : Bool := s.length = 11

/-- A fully validated observation row of the stats table (the typed view
of one row of `self._data` as appended by `add_row`). -/
structure Row where
  video_id : String
  timestamp : Rat
  views : Int
  rating : Option Rat
  likes : Option Int
  dislikes : Option Int
deriving DecidableEq, Repr

/-- The row collection of a `Stats` object: (pandas index label, row)
pairs in positional order.  `loc[len(data)]` appends assign the labels;
`sort_values` permutes positions while keeping labels attached. -/
abbrev StatsData := List (Nat × Row)

/-- Lexicographic character-code order (the `str` order pandas sorts by),
written out on the character lists. -/
def charsLt : List Char → List Char → Bool
  | [], [] => false
  | [], _ :: _ => true
  | _ :: _, [] => false
  | a :: as, b :: bs =>
    if a.toNat < b.toNat then true
    else if b.toNat < a.toNat then false
    else charsLt as bs

/-- Lexicographic order on strings. -/
def strLt (a b : String) : Bool := charsLt a.data b.data

/-- Sort order of `sort_values(["video_id", "timestamp"])`. -/
def rowKeyLe (a b : Row) : Bool :=
  strLt a.video_id b.video_id
    || (a.video_id = b.video_id && a.timestamp ≤ b.timestamp)

/-- Insert into a key-sorted row list. -/
def insertRow (p : Nat × Row) : StatsData → StatsData
  | [] => [p]
  | q :: rest =>
    if rowKeyLe p.2 q.2 then p :: q :: rest else q :: insertRow p rest

/-- `sort_values(["video_id", "timestamp"])`.  At every call site the keys
are pairwise distinct (the duplicate check precedes), so the sort order is
unique and the library's choice of algorithm is immaterial; insertion sort
realizes it. -/
def sortRows : StatsData → StatsData
  | [] => []
  | p :: rest => insertRow p (sortRows rest)

/-- `data.loc[label] = row`: replace the row carrying that index label if
present, else append with that label. -/
def locSet (s : StatsData) (label : Nat) (r : Row) : StatsData :=
  if s.any (fun p => p.1 = label) then
    s.map (fun p => if p.1 = label then (label, r) else p)
  else s ++ [(label, r)]

/-- `Stats.add_row` over typed arguments (`now` stands for
`datetime.now()`; the isinstance branches of the source are vacuous for
typed inputs).  Every `raise` in the source precedes the first mutation of
`self._data`, so the error case carries no state. -/
def add_row (s : StatsData) (now : Rat) (video_id : String) (timestamp : Rat)
    (views : Int) (rating : Option Rat) (likes dislikes : Option Int) :
    Except PyErr StatsData :=
  if !is_video_id video_id then .error .badVideoId
  else if timestamp > now then .error .futureTimestamp
  else if views < 0 then .error .negativeViews
  else if (match rating with
           | some r => decide (r < 0) || decide (5 < r)
           | none => false) then .error .ratingOutOfRange
  else if (match likes with | some v => decide (v < 0) | none => false) then
    .error (.negativeField ("likes"))
  else if (match dislikes with | some v => decide (v < 0) | none => false) then
    .error (.negativeField ("dislikes"))
  else if s.any (fun p =>
      p.2.video_id = video_id && p.2.timestamp = timestamp) then
    .error (.duplicateRow video_id timestamp)
  else
    match rating, likes, dislikes with
    | none, some l, some d =>
      -- `rating = 5 * likes / (likes + dislikes)`: Python true division of
      -- ints, exact here (written `Rat.divInt n d = n / d`); it raises
      -- ZeroDivisionError on a zero denominator
      if l + d = 0 then .error .zeroDivisionError
      else
        .ok (sortRows (locSet s s.length
          ⟨video_id, timestamp, views,
           some (Rat.divInt (5 * l) (l + d)), likes, dislikes⟩))
    | _, _, _ =>
      .ok (sortRows (locSet s s.length
        ⟨video_id, timestamp, views, rating, likes, dislikes⟩))

/-- `self._data` after an `add_row` call: the new collection on success,
untouched on any raise (every raise precedes the first mutation). -/
def add_row_post (s : StatsData) (now : Rat) (video_id : String)
    (timestamp : Rat) (views : Int) (rating : Option Rat)
    (likes dislikes : Option Int) : StatsData :=
  match add_row s now video_id timestamp views rating likes dislikes with
  | .ok t => t
  | .error _ => s

/-- Insert into a sorted string list. -/
def insertStr (x : String) : List String → List String
  | [] => [x]
  | y :: rest => if !strLt y x then x :: y :: rest else y :: insertStr x rest

/-- The distinct group keys in ascending order (`groupby("video_id")`
sorts its keys). -/
def sortedIds (s : StatsData) : List String :=
  ((s.map (fun p => p.2.video_id)).foldr insertStr []).dedup

/-- `group["timestamp"].idxmax()`: the index LABEL of the first row (in
positional order) attaining the group's maximal timestamp. -/
def idxmaxFor (s : StatsData) (id : String) : Option Nat :=
  ((s.filter (fun p => p.2.video_id = id)).foldl
    (fun acc p =>
      match acc with
      | none => some p
      | some q => if p.2.timestamp > q.2.timestamp then some p else some q)
    none).map (fun p => p.1)

/-- Python dict insertion: overwrite an existing key in place, else
append. -/
def dictInsert (m : List (String × Row)) (k : String) (r : Row) :
    List (String × Row) :=
  if m.any (fun p => p.1 = k) then
    m.map (fun p => if p.1 = k then (k, r) else p)
  else m ++ [(k, r)]

/-- `Stats.most_recent`:
`indices = groupby("video_id")["timestamp"].idxmax()` yields index LABELS,
but `self._data.iloc[indices]` consumes them POSITIONALLY; the selected
rows are then keyed by their own ids via
`set_index("video_id").T.to_dict()`. -/
def most_recent (s : StatsData) : Except PyErr (List (String × Row)) := do
  let indices := (sortedIds s).filterMap (fun id => idxmaxFor s id)
  let subset ← indices.mapM (fun i =>
    match s.get? i with
    | some p => Except.ok p.2
    | none => Except.error PyErr.indexError)
  return subset.foldl (fun m r => dictInsert m r.video_id r) []

/-- The classifier's numeric narrowing order: integer before float before
complex (narrowest lossless type wins). -/
def narrowLE : Atomic → Atomic → Bool
  | .int, .int | .int, .float | .int, .complex => true
  | .float, .float | .float, .complex => true
  | .complex, .complex => true
  | _, _ => false

/-- Cell shapes a successful conversion to a numeric target can produce
(a float target may receive int cells: `x.real` of a Python int is an
int). -/
def numShape : Atomic → Val → Prop
  | .int, r => (∃ n, r = Val.vInt n) ∨ r = Val.vNan
  | .float, r =>
    (∃ q, r = Val.vFloat q) ∨ (∃ n, r = Val.vInt n) ∨ r = Val.vNan
  | .complex, r => (∃ re im, r = Val.vComplex re im) ∨ r = Val.vNan
  | _, _ => True

/-- Rows of the three-append scenario exercising `most_recent`. -/
def c3RowB1 : Row := ⟨("BBBBBBBBBBB"), 1, 100, some 4, none, none⟩

def c3RowA2 : Row := ⟨("AAAAAAAAAAA"), 2, 100, some 4, none, none⟩

def c3RowA3 : Row := ⟨("AAAAAAAAAAA"), 3, 100, some 4, none, none⟩

/-- The store after the three appends: labels 0,1,2 in insertion order,
positions permuted by `sort_values`. -/
def c3Store : StatsData := [(1, c3RowA2), (2, c3RowA3), (0, c3RowB1)]

/-- A table missing the `dislikes` column and carrying an extra `foo`
column. -/
def c8data : Table :=
  [(("video_id"), ⟨.stringDt, [.vStr ("AAAAAAAAAAA")]⟩),
   (("timestamp"), ⟨.datetime64, [.vDatetime 1]⟩),
   (("views"), ⟨.int64, [.vInt 1]⟩),
   (("rating"), ⟨.float64, [.vFloat 1]⟩),
   (("likes"), ⟨.int64, [.vInt 1]⟩),
   (("foo"), ⟨.int64, [.vInt 1]⟩)]

/-! ### Helper lemmas -/

theorem ratTrunc_intCast (n : Int) : ratTrunc (n : Rat) = n := by
  unfold ratTrunc Rat.floor Rat.ceil
  simp [Rat.den_intCast, Rat.num_intCast]

theorem exMap_ok_forall2 {f : Val → Except PyErr Val} :
    ∀ {vs rs : List Val}, exMap f vs = .ok rs →
      List.Forall₂ (fun v r => f v = .ok r) vs rs := by
  intro vs
  induction vs with
  | nil =>
    intro rs h
    simp only [exMap] at h
    cases h
    exact .nil
  | cons v tl ih =>
    intro rs h
    simp only [exMap] at h
    cases hv : f v with
    | error e => rw [hv] at h; cases h
    | ok r =>
      rw [hv] at h
      cases hrest : exMap f tl with
      | error e => rw [hrest] at h; cases h
      | ok rs2 =>
        rw [hrest] at h
        cases h
        exact .cons hv (ih hrest)

theorem exMap_total_or_err {f : Val → Except PyErr Val} {E : PyErr} :
    ∀ {vs : List Val},
      (∀ v ∈ vs, (∃ r, f v = .ok r) ∨ f v = .error E) →
      (∃ rs, exMap f vs = .ok rs) ∨ exMap f vs = .error E := by
  intro vs
  induction vs with
  | nil => intro _; exact .inl ⟨[], rfl⟩
  | cons v tl ih =>
    intro h
    rcases h v (by simp) with ⟨r, hr⟩ | hr
    · rcases ih (fun w hw => h w (by simp [hw])) with ⟨rs, hrs⟩ | hrs
      · exact .inl ⟨r :: rs, by simp only [exMap, hr, hrs]⟩
      · exact .inr (by simp only [exMap, hr, hrs])
    · exact .inr (by simp only [exMap, hr])

theorem mem_insertRow {p q : Nat × Row} :
    ∀ {l : StatsData}, p ∈ insertRow q l ↔ p = q ∨ p ∈ l := by
  intro l
  induction l with
  | nil => simp [insertRow]
  | cons x tl ih =>
    simp only [insertRow]
    split
    · simp
    · simp only [List.mem_cons, ih]
      tauto

theorem mem_sortRows {p : Nat × Row} :
    ∀ {l : StatsData}, p ∈ sortRows l ↔ p ∈ l := by
  intro l
  induction l with
  | nil => simp [sortRows]
  | cons x tl ih => simp [sortRows, mem_insertRow, ih]

theorem mem_locSet_self (s : StatsData) (label : Nat) (r : Row) :
    (label, r) ∈ locSet s label r := by
  unfold locSet
  split
  · next h =>
    rcases List.any_eq_true.mp h with ⟨p, hp, hlab⟩
    refine List.mem_map.mpr ⟨p, hp, ?_⟩
    simp only [decide_eq_true_eq] at hlab
    simp [hlab]
  · exact List.mem_append_right _ (by simp)

theorem dropNull_eq_nil {vs : List Val} :
    dropNull vs = [] ↔ ∀ v ∈ vs, v.isNull = true := by
  simp [dropNull, List.filter_eq_nil_iff]

theorem dropNull_map_nil {g : Val → Val}
    (hg : ∀ v, v.isNull = true → (g v).isNull = true) {vs : List Val}
    (h : dropNull vs = []) : dropNull (vs.map g) = [] := by
  rw [dropNull_eq_nil] at h ⊢
  intro v hv
  rcases List.mem_map.mp hv with ⟨w, hw, rfl⟩
  exact hg w (h w hw)

theorem firstErr_none_of_null {f : Val → Except PyErr Unit}
    (hf : ∀ v, v.isNull = true → f v = .ok ()) {vs : List Val}
    (h : ∀ v ∈ vs, v.isNull = true) : firstErr f vs = none := by
  induction vs with
  | nil => rfl
  | cons v tl ih =>
    simp only [firstErr, hf v (h v (by simp))]
    exact ih (fun w hw => h w (by simp [hw]))

theorem ratIsInt_intCast (n : Int) : ratIsInt ((n : Rat)) = true := by
  simp [ratIsInt, Rat.den_intCast]

theorem map_ok_shape {β : Type} (g : β → Val) (p : Option β) (r : Val)
    (P : Val → Prop) (hg : ∀ b, P (g b))
    (heq : (match (match p with
              | some q => Except.ok q
              | none => Except.error PyErr.parseValueError) with
            | Except.error err => Except.error err
            | Except.ok v => Except.ok (g v)) = Except.ok r) : P r := by
  cases p with
  | some b => cases heq; exact hg b
  | none => cases heq

theorem parse_ok_shape {β : Type} (g : β → Val) (p : Option β) (r : Val)
    (P : Val → Prop) (hg : ∀ b, P (g b))
    (heq : (match p with
            | some q => Except.ok (g q)
            | none => Except.error PyErr.parseValueError) = Except.ok r) :
    P r := by
  cases p with
  | some b => cases heq; exact hg b
  | none => cases heq

/-- Every conversion lambda with a numeric target produces, when it
succeeds on a cell, either a value of the target's representation or the
numeric missing marker `np.nan`. -/
theorem conv_numeric_shape (ft t : Atomic) (f : Val → CRes)
    (hf : conversions ft t = some f) (v r : Val) (hv : f v = .val r) :
    numShape t r := by
  cases t <;> try trivial
  all_goals
    cases ft <;> cases hf <;> cases v <;>
      (try simp [Val.isNull, resOf, Except.map, pyInt, pyFloat, pyComplex2,
        pyComplex1, pyBool, pyStr, pyFromtimestamp, pyTimedeltaSeconds,
        pyReal, pyImag, pyTimestampOf, pyTotalSeconds, pyStrip] at hv) <;>
      (try (repeat' split at hv)) <;>
      (first
        | (cases hv; simp [numShape]; done)
        | (cases hv; done)
        | (rename_i s x v heq
           first
             | (cases hp : parsePyInt s.trim <;> rw [hp] at heq <;>
                  cases heq <;> cases hv <;> simp [numShape])
             | (cases hp : parsePyFloat s.trim <;> rw [hp] at heq <;>
                  cases heq <;> cases hv <;> simp [numShape])))

theorem mem_dropNull {v : Val} {vs : List Val} :
    v ∈ dropNull vs ↔ v ∈ vs ∧ v.isNull = false := by
  simp [dropNull, List.mem_filter]

theorem do_coercion_ok {f : Val → CRes} {tt : Atomic} {col : Series}
    {x r : Val} (h : do_coercion f tt col x = .ok r) : f x = .val r := by
  unfold do_coercion at h
  cases hf : f x <;> rw [hf] at h
  · cases h; rfl
  · cases h
  · cases h

theorem forall2_mem_right {R : Val → Val → Prop} {vs rs : List Val}
    (h : List.Forall₂ R vs rs) : ∀ r ∈ rs, ∃ v ∈ vs, R v r := by
  induction h with
  | nil => intro r hr; cases hr
  | cons hR htl ih =>
    intro r hr
    rcases List.mem_cons.mp hr with rfl | hr
    · exact ⟨_, by simp, hR⟩
    · rcases ih r hr with ⟨v, hv, hvr⟩
      exact ⟨v, by simp [hv], hvr⟩

theorem gsd_int64 (vs : List Val) :
    get_series_dtype ⟨Dtype.int64, vs⟩ = .ok .int := rfl

theorem gsd_float64_intish (vs : List Val)
    (h : ∀ v ∈ dropNull vs, ∃ n : Int, v = Val.vFloat ((n : Int) : Rat)) :
    get_series_dtype ⟨Dtype.float64, vs⟩ = .ok .int := by
  unfold get_series_dtype Series.convertDtypes
  simp only [is_complex_dtype]
  split
  · next hcx => cases hcx
  · split
    · rfl
    · next hcond =>
      exfalso
      rw [Bool.not_eq_true, List.all_eq_false] at hcond
      rcases hcond with ⟨v, hv, hbad⟩
      rcases h v hv with ⟨n, rfl⟩
      exact hbad (by simpa using ratIsInt_intCast n)

theorem gsd_float64_or (vs : List Val) :
    get_series_dtype ⟨Dtype.float64, vs⟩ = .ok .int ∨
      get_series_dtype ⟨Dtype.float64, vs⟩ = .ok .float := by
  unfold get_series_dtype Series.convertDtypes
  simp only [is_complex_dtype]
  split
  · next hcx => cases hcx
  · split
    · exact Or.inl rfl
    · exact Or.inr rfl

theorem firstErr_intProbe_cx (vs : List Val)
    (hsh : ∀ v ∈ vs, (∃ re im, v = Val.vComplex re im) ∨ v = Val.vNan) :
    firstErr toIntegerProbe vs = none ∨
      firstErr toIntegerProbe vs = some .probeValueError := by
  induction vs with
  | nil => exact Or.inl rfl
  | cons v tl ih =>
    have htl := ih (fun w hw => hsh w (List.mem_cons_of_mem _ hw))
    rcases hsh v (List.mem_cons_self v tl) with ⟨re, im, rfl⟩ | rfl
    · by_cases hc : (decide (im = 0) && ratIsInt re) = true
      · have hp : toIntegerProbe (Val.vComplex re im) = .ok () := by
          simp only [toIntegerProbe, Val.isNull, Bool.false_eq_true,
            if_false, hc, if_true]
        simp only [firstErr, hp]
        exact htl
      · rw [Bool.not_eq_true] at hc
        have hp : toIntegerProbe (Val.vComplex re im) =
            .error .probeValueError := by
          simp only [toIntegerProbe, Val.isNull, Bool.false_eq_true,
            if_false, hc, Bool.false_eq_true]
        simp only [firstErr, hp]
        exact Or.inr (by simp)
    · have hp : toIntegerProbe Val.vNan = .ok () := rfl
      simp only [firstErr, hp]
      exact htl

theorem firstErr_floatProbe_cx (vs : List Val)
    (hsh : ∀ v ∈ vs, (∃ re im, v = Val.vComplex re im) ∨ v = Val.vNan) :
    firstErr toFloatProbe vs = none ∨
      firstErr toFloatProbe vs = some .probeValueError := by
  induction vs with
  | nil => exact Or.inl rfl
  | cons v tl ih =>
    have htl := ih (fun w hw => hsh w (List.mem_cons_of_mem _ hw))
    rcases hsh v (List.mem_cons_self v tl) with ⟨re, im, rfl⟩ | rfl
    · by_cases hc : im = 0
      · have hp : toFloatProbe (Val.vComplex re im) = .ok () := by
          simp only [toFloatProbe, Val.isNull, Bool.false_eq_true, if_false]
          exact if_pos hc
        simp only [firstErr, hp]
        exact htl
      · have hp : toFloatProbe (Val.vComplex re im) =
            .error .probeValueError := by
          simp only [toFloatProbe, Val.isNull, Bool.false_eq_true, if_false]
          exact if_neg hc
        simp only [firstErr, hp]
        exact Or.inr (by simp)
    · have hp : toFloatProbe Val.vNan = .ok () := rfl
      simp only [firstErr, hp]
      exact htl

theorem gsd_complex128 (vs : List Val)
    (hsh : ∀ v ∈ vs, (∃ re im, v = Val.vComplex re im) ∨ v = Val.vNan) :
    ∃ a, get_series_dtype ⟨Dtype.complex128, vs⟩ = .ok a ∧
      narrowLE a .complex = true := by
  rcases firstErr_intProbe_cx vs hsh with hI | hI
  · exact ⟨.int, by unfold get_series_dtype; simp [is_complex_dtype, hI], rfl⟩
  · rcases firstErr_floatProbe_cx vs hsh with hF | hF
    · refine ⟨.float, ?_, rfl⟩
      unfold get_series_dtype
      simp [is_complex_dtype, hI, hF]
    · refine ⟨.complex, ?_, rfl⟩
      unfold get_series_dtype
      simp [is_complex_dtype, hI, hF]

theorem classify_shaped (t : Atomic) (rs : List Val) (hne : rs ≠ [])
    (ht : t = Atomic.int ∨ t = Atomic.float ∨ t = Atomic.complex)
    (hsh : ∀ r ∈ rs, numShape t r) :
    ∃ a, get_series_dtype (mkSeries rs) = .ok a ∧ narrowLE a t = true := by
  have hemp : rs.isEmpty = false := by
    cases rs with
    | nil => exact absurd rfl hne
    | cons a l => rfl
  rcases ht with rfl | rfl | rfl
  · -- integer target: cells are ints or nan
    by_cases h1 : rs.all Val.isIntV = true
    · have hm : mkSeries rs = ⟨Dtype.int64, rs⟩ := by
        unfold mkSeries; simp [hemp, h1]
      exact ⟨.int, by rw [hm]; exact gsd_int64 rs, rfl⟩
    · rw [Bool.not_eq_true] at h1
      have h2 : rs.all (fun v =>
          v.isIntV || v.isFloatV || v == Val.vNan || v == Val.vNone) = true := by
        rw [List.all_eq_true]
        intro v hv
        rcases hsh v hv with ⟨n, rfl⟩ | rfl <;> simp [Val.isIntV]
      have hm : mkSeries rs = ⟨Dtype.float64, rs.map Val.toFloatCell⟩ := by
        unfold mkSeries; simp [hemp, h1, h2]
      rw [hm]
      refine ⟨.int, gsd_float64_intish _ ?_, rfl⟩
      intro v hv
      rcases mem_dropNull.mp hv with ⟨hvm, hnn⟩
      rcases List.mem_map.mp hvm with ⟨w, hw, rfl⟩
      rcases hsh w hw with ⟨n, rfl⟩ | rfl
      · exact ⟨n, rfl⟩
      · exfalso; simp [Val.toFloatCell, Val.isNull] at hnn
  · -- float target: cells are floats, ints or nan
    by_cases h1 : rs.all Val.isIntV = true
    · have hm : mkSeries rs = ⟨Dtype.int64, rs⟩ := by
        unfold mkSeries; simp [hemp, h1]
      exact ⟨.int, by rw [hm]; exact gsd_int64 rs, rfl⟩
    · rw [Bool.not_eq_true] at h1
      have h2 : rs.all (fun v =>
          v.isIntV || v.isFloatV || v == Val.vNan || v == Val.vNone) = true := by
        rw [List.all_eq_true]
        intro v hv
        rcases hsh v hv with ⟨q, rfl⟩ | ⟨n, rfl⟩ | rfl <;>
          simp [Val.isIntV, Val.isFloatV]
      have hm : mkSeries rs = ⟨Dtype.float64, rs.map Val.toFloatCell⟩ := by
        unfold mkSeries; simp [hemp, h1, h2]
      rw [hm]
      rcases gsd_float64_or (rs.map Val.toFloatCell) with h | h
      · exact ⟨.int, h, rfl⟩
      · exact ⟨.float, h, rfl⟩
  · -- complex target: cells are complexes or nan
    by_cases h2 : rs.all (fun v =>
        v.isIntV || v.isFloatV || v == Val.vNan || v == Val.vNone) = true
    · -- then every cell is nan
      have hnull : ∀ v ∈ rs, v = Val.vNan := by
        intro v hv
        rcases hsh v hv with ⟨re, im, rfl⟩ | rfl
        · exfalso
          have := List.all_eq_true.mp h2 _ hv
          simp [Val.isIntV, Val.isFloatV] at this
        · rfl
      have h1 : rs.all Val.isIntV = false := by
        rcases rs with _ | ⟨v, tl⟩
        · exact absurd rfl hne
        · have hvn := hnull v (by simp)
          subst hvn
          simp [Val.isIntV]
      have hm : mkSeries rs = ⟨Dtype.float64, rs.map Val.toFloatCell⟩ := by
        unfold mkSeries; simp [hemp, h1, h2]
      rw [hm]
      refine ⟨.int, gsd_float64_intish _ ?_, rfl⟩
      intro v hv
      exfalso
      rcases mem_dropNull.mp hv with ⟨hvm, hnn⟩
      rcases List.mem_map.mp hvm with ⟨w, hw, rfl⟩
      have hwn := hnull w hw
      subst hwn
      simp [Val.toFloatCell, Val.isNull] at hnn
    · -- a genuine complex cell forces complex128 storage
      have h3 : rs.all (fun v =>
          v.isIntV || v.isFloatV || v.isComplexV ||
            v == Val.vNan || v == Val.vNone) = true := by
        rw [List.all_eq_true]
        intro v hv
        rcases hsh v hv with ⟨re, im, rfl⟩ | rfl <;> simp [Val.isComplexV]
      have h1 : rs.all Val.isIntV = false := by
        by_contra hx
        rw [Bool.not_eq_false, List.all_eq_true] at hx
        apply h2
        rw [List.all_eq_true]
        intro v hv
        have := hx v hv
        simp [this]
      rw [Bool.not_eq_true] at h2
      have hm : mkSeries rs = ⟨Dtype.complex128, rs.map Val.toComplexCell⟩ := by
        unfold mkSeries; simp [hemp, h1, h2, h3]
      rw [hm]
      apply gsd_complex128
      intro v hv
      rcases List.mem_map.mp hv with ⟨w, hw, rfl⟩
      rcases hsh w hw with ⟨re, im, rfl⟩ | rfl
      · exact Or.inl ⟨re, im, rfl⟩
      · exact Or.inr rfl

/-! ### Claims -/

/-- C9: with `rating` omitted and `likes = dislikes = 0` — arguments that
pass every documented scalar validation (shown by the first conjuncts) —
`add_row` reaches the derivation `5 * likes / (likes + dislikes)` and
fails with an unguarded ZeroDivisionError, an error outside the documented
taxonomy, instead of appending a row. -/
theorem C9_zero_division_on_valid_input :
    is_video_id ("11charID000") = true
  ∧ ((5 : Rat) ≤ 10)
  ∧ ((0 : Int) ≤ 100)
  ∧ ((0 : Int) ≤ 0)
  ∧ add_row [] 10 ("11charID000") 5 100 none (some 0) (some 0)
      = .error .zeroDivisionError := by
  decide

/-- C2 (code bug): `convert_dtypes` is `coerce_dtypes(data, **check_dtypes(data))`,
so the inferred column-name → type map is keyword-expanded against
`coerce_dtypes`'s signature; on the one-column table {"a": [1]} the call
raises a TypeError for the unexpected keyword `a` instead of normalizing,
while the composition the spec describes,
`coerce_dtypes(data, check_dtypes(data))`, succeeds on the same table. -/
theorem C2_convert_dtypes_type_error :
    convert_dtypes [(("a"), ⟨.int64, [Val.vInt 1]⟩)]
      = .error (.unexpectedKwarg ("a"))
  ∧ (check_dtypes_frame [(("a"), ⟨.int64, [Val.vInt 1]⟩)]).bind
      (coerce_dtypes_frame [(("a"), ⟨.int64, [Val.vInt 1]⟩)])
      = .ok [(("a"), ⟨.int64, [Val.vInt 1]⟩)] := by
  decide

/-- C3 (code bug): in the store built by three successful `add_row` calls
— (B,1), (A,2), (A,3) — `most_recent` maps video "AAAAAAAAAAA" to its
timestamp-2 row even though the store holds that video's timestamp-3 row:
`groupby(...)["timestamp"].idxmax()` returns index LABELS, which `iloc`
then consumes POSITIONALLY after `sort_values` has permuted the labels. -/
theorem C3_most_recent_wrong_row :
    add_row [] 10 ("BBBBBBBBBBB") 1 100 (some 4) none none = .ok [(0, c3RowB1)]
  ∧ add_row [(0, c3RowB1)] 10 ("AAAAAAAAAAA") 2 100 (some 4) none none
      = .ok [(1, c3RowA2), (0, c3RowB1)]
  ∧ add_row [(1, c3RowA2), (0, c3RowB1)] 10 ("AAAAAAAAAAA") 3 100 (some 4)
      none none = .ok c3Store
  ∧ (2, c3RowA3) ∈ c3Store
  ∧ c3RowA3.video_id = ("AAAAAAAAAAA")
  ∧ c3RowA3.timestamp = 3
  ∧ most_recent c3Store = .ok [(("BBBBBBBBBBB"), c3RowB1), (("AAAAAAAAAAA"), c3RowA2)]
  ∧ c3RowA2.timestamp = 2
  ∧ ((2 : Rat) < 3) := by
  decide

/-- C4 (counterexample): an all-missing column stored as complex is
classified integer — the elementwise narrowing probes succeed vacuously —
not generic. -/
theorem C4_all_missing_complex_classifies_int :
    dropNull [Val.vNan] = []
  ∧ get_series_dtype ⟨.complex128, [Val.vNan]⟩ = .ok .int
  ∧ Atomic.int ≠ Atomic.object := by
  decide

/-- C4 (amended): an all-missing column classifies generic exactly when it
is stored as an untyped object column; all-missing columns of concrete
storage classify according to that storage — float and complex storage
narrow (vacuously) to integer, nullable integers to integer, nullable
floats to float, string storage to string, nullable booleans to boolean,
datetime storage to datetime and timedelta storage to duration. -/
theorem C4_all_missing_by_storage (vs : List Val) (h : dropNull vs = []) :
    get_series_dtype ⟨.object, vs⟩ = .ok .object
  ∧ get_series_dtype ⟨.complex128, vs⟩ = .ok .int
  ∧ get_series_dtype ⟨.float64, vs⟩ = .ok .int
  ∧ get_series_dtype ⟨.nullableInt, vs⟩ = .ok .int
  ∧ get_series_dtype ⟨.nullableFloat, vs⟩ = .ok .float
  ∧ get_series_dtype ⟨.stringDt, vs⟩ = .ok .str
  ∧ get_series_dtype ⟨.nullableBool, vs⟩ = .ok .bool
  ∧ get_series_dtype ⟨.datetime64, vs⟩ = .ok .datetime
  ∧ get_series_dtype ⟨.timedelta64, vs⟩ = .ok .timedelta := by
  have hnull : ∀ v ∈ vs, v.isNull = true := dropNull_eq_nil.mp h
  have hprobe : firstErr toIntegerProbe vs = none :=
    firstErr_none_of_null (fun v hv => by simp [toIntegerProbe, hv]) hnull
  have hobj : convertObjectCells vs = ⟨.object, vs⟩ := by
    simp [convertObjectCells, h]
  refine ⟨?_, ?_, ?_, rfl, rfl, rfl, rfl, rfl, rfl⟩
  · show get_series_dtype ⟨.object, vs⟩ = .ok .object
    simp [get_series_dtype, is_complex_dtype, Series.convertDtypes, hobj,
      is_object_dtype, h]
  · show get_series_dtype ⟨.complex128, vs⟩ = .ok .int
    simp [get_series_dtype, is_complex_dtype, hprobe]
  · show get_series_dtype ⟨.float64, vs⟩ = .ok .int
    simp [get_series_dtype, is_complex_dtype, Series.convertDtypes, h,
      is_object_dtype, is_integer_dtype]

theorem exMap_ok_of_mem {f : Val → Except PyErr Val} :
    ∀ {vs rs : List Val} {v : Val}, exMap f vs = .ok rs → v ∈ vs →
      ∃ r, f v = .ok r := by
  intro vs
  induction vs with
  | nil => intro rs v _ hv; cases hv
  | cons w tl ih =>
    intro rs v h hv
    simp only [exMap] at h
    cases hw : f w with
    | error e => rw [hw] at h; cases h
    | ok r =>
      rw [hw] at h
      cases hrest : exMap f tl with
      | error e => rw [hrest] at h; cases h
      | ok rs2 =>
        rcases List.mem_cons.mp hv with rfl | hv2
        · exact ⟨r, hw⟩
        · exact ih hrest hv2

theorem ratTrunc_cast_eq_iff (q : Rat) :
    ((ratTrunc q : Rat) = q) ↔ ratIsInt q = true := by
  constructor
  · intro hq
    have : ((ratTrunc q : Rat)).den = q.den := by rw [hq]
    simpa [ratIsInt, Rat.den_intCast] using this.symm
  · intro hd
    have hone : q.den = 1 := by simpa [ratIsInt] using hd
    have hq : (q.num : Rat) = q := (Rat.den_eq_one_iff q).mp hone
    calc ((ratTrunc q : Rat))
        = ((ratTrunc ((q.num : Rat)) : Rat)) := by rw [hq]
      _ = ((q.num : Rat)) := by rw [ratTrunc_intCast]
      _ = q := hq

/-- C5: the lossy-rejection contract of float-to-integer coercion.
(1) Coercing [1.5, 2.5] to integer raises the lossy-conversion error
carrying the target type and the head of the column — no partial result.
(2) Coercing [1.0, 2.0] to integer succeeds and the resulting cells equal
[1, 2] under Python `==` (the classifier deems the column integer already,
so the identity branch returns an unchanged copy in float storage).
(3) Elementwise, the float→int table entry succeeds exactly on integral
floats (and truncates to the exact integer there).
(4) Any float column containing a single non-integral value makes the
whole coercion to integer fail with the error identifying the target type
and the head of the column. -/
theorem C5_lossy_rejection :
    (coerce_dtypes_series ⟨.float64, [.vFloat (mkRat 3 2), .vFloat (mkRat 5 2)]⟩ .int
       = .error (.lossyTop .int [.vFloat (mkRat 3 2), .vFloat (mkRat 5 2)]))
  ∧ (coerce_dtypes_series ⟨.float64, [.vFloat 1, .vFloat 2]⟩ .int
       = .ok ⟨.float64, [.vFloat 1, .vFloat 2]⟩
     ∧ List.Forall₂ (fun a b => Val.pyEq a b = true)
         [Val.vFloat 1, Val.vFloat 2] [Val.vInt 1, Val.vInt 2])
  ∧ (∀ q : Rat, ∃ f, conversions .float .int = some f ∧
       f (.vFloat q)
         = if ratIsInt q then .val (.vInt (ratTrunc q)) else .sentinel)
  ∧ (∀ c : Series, c.dtype = .float64 →
       (∀ v ∈ c.values, v.isNull = true ∨ ∃ q, v = Val.vFloat q) →
       (∃ q, Val.vFloat q ∈ c.values ∧ ratIsInt q = false) →
       coerce_dtypes_series c .int = .error (.lossyTop .int (head5 c))) := by
  refine ⟨by decide, ⟨by decide, by decide⟩, ?_, ?_⟩
  · intro q
    refine ⟨_, rfl, ?_⟩
    simp only [Val.isNull, Bool.false_eq_true, if_false, pyInt]
    have hpe : Val.pyEq (.vInt (ratTrunc q)) (.vFloat q)
        = decide ((ratTrunc q : Rat) = q) := by
      simp [Val.pyEq, Val.asNum]
    by_cases hq : ratIsInt q = true
    · rw [if_pos hq, hpe, decide_eq_true ((ratTrunc_cast_eq_iff q).mpr hq)]
      simp
    · rw [if_neg hq]
      have hne : ¬ ((ratTrunc q : Rat) = q) := fun hc =>
        hq ((ratTrunc_cast_eq_iff q).mp hc)
      rw [hpe, decide_eq_false hne]
      simp
  · rintro c hdt hshape ⟨q, hqmem, hqbad⟩
    -- the classifier returns float: the convert_dtypes integral test fails
    obtain ⟨dt, vs⟩ := c
    cases hdt
    have hnotall : ((dropNull vs).all (fun v =>
        match v with | .vFloat r => ratIsInt r | _ => false)) = false := by
      refine Bool.eq_false_iff.mpr ?_
      intro hall
      have hin : Val.vFloat q ∈ dropNull vs :=
        List.mem_filter.mpr ⟨hqmem, by simp [Val.isNull]⟩
      have := List.all_eq_true.mp hall _ hin
      simp only at this
      rw [hqbad] at this
      cases this
    have hclass : get_series_dtype ⟨.float64, vs⟩ = .ok .float := by
      simp [get_series_dtype, is_complex_dtype, Series.convertDtypes, hnotall,
        is_object_dtype, is_integer_dtype, is_float_dtype]
    set F : Val → CRes := (fun x =>
        if x.isNull then CRes.val .vNan
        else match pyInt x with
          | .error e => CRes.exn e
          | .ok n =>
            if (Val.vInt n).pyEq x then CRes.val (.vInt n) else CRes.sentinel)
      with hFdef
    have hconv : conversions .float .int = some F := by rw [hFdef]; rfl
    -- elementwise: every cell converts or raises the single lossy error
    have hdich : ∀ v ∈ vs,
        (∃ r, do_coercion F .int ⟨.float64, vs⟩ v = .ok r)
        ∨ do_coercion F .int ⟨.float64, vs⟩ v
            = .error (.lossy .int (head5 ⟨.float64, vs⟩)) := by
      intro v hv
      rcases hshape v hv with hnl | ⟨r, rfl⟩
      · exact .inl ⟨.vNan, by simp [do_coercion, hFdef, hnl]⟩
      · by_cases hint : ratIsInt r = true
        · refine .inl ⟨.vInt (ratTrunc r), ?_⟩
          simp only [do_coercion, hFdef, Val.isNull, Bool.false_eq_true,
            if_false, pyInt]
          rw [show Val.pyEq (.vInt (ratTrunc r)) (.vFloat r)
              = decide ((ratTrunc r : Rat) = r) by simp [Val.pyEq, Val.asNum]]
          rw [decide_eq_true ((ratTrunc_cast_eq_iff r).mpr hint)]
          simp
        · refine .inr ?_
          simp only [do_coercion, hFdef, Val.isNull, Bool.false_eq_true,
            if_false, pyInt]
          have hne : ¬ ((ratTrunc r : Rat) = r) := fun hc =>
            hint ((ratTrunc_cast_eq_iff r).mp hc)
          rw [show Val.pyEq (.vInt (ratTrunc r)) (.vFloat r)
              = decide ((ratTrunc r : Rat) = r) by simp [Val.pyEq, Val.asNum]]
          rw [decide_eq_false hne]
          simp
    have hbadv : ∀ r, do_coercion F .int ⟨.float64, vs⟩ (.vFloat q) ≠ .ok r := by
      intro r hok
      simp only [do_coercion, hFdef, Val.isNull, Bool.false_eq_true, if_false,
        pyInt] at hok
      have hne : ¬ ((ratTrunc q : Rat) = q) := fun hc => by
        rw [(ratTrunc_cast_eq_iff q).mp hc] at hqbad; cases hqbad
      rw [show Val.pyEq (.vInt (ratTrunc q)) (.vFloat q)
          = decide ((ratTrunc q : Rat) = q) by simp [Val.pyEq, Val.asNum]] at hok
      rw [decide_eq_false hne] at hok
      simp at hok
    have hmap := exMap_total_or_err (f := do_coercion F .int ⟨.float64, vs⟩)
      (E := .lossy .int (head5 ⟨.float64, vs⟩)) hdich
    rcases hmap with ⟨rs, hok⟩ | herr
    · rcases exMap_ok_of_mem hok hqmem with ⟨r, hr⟩
      exact absurd hr (hbadv r)
    · show coerce_dtypes_series ⟨.float64, vs⟩ .int = _
      simp [coerce_dtypes_series, coerce_column, hclass, hconv,
        applySeries, herr, isValueError]

/-- Witness for C5's universal parts at concrete inputs: part (3) at the
float 7/2 and part (4) at the column [1.0, 3.5]. -/
theorem C5_lossy_rejection_witness :
    (∃ f, conversions .float .int = some f ∧
       f (.vFloat (mkRat 7 2)) = .sentinel)
  ∧ coerce_dtypes_series ⟨.float64, [.vFloat 1, .vFloat (mkRat 7 2)]⟩ .int
      = .error (.lossyTop .int [.vFloat 1, .vFloat (mkRat 7 2)]) := by
  constructor
  · rcases C5_lossy_rejection.2.2.1 (mkRat 7 2) with ⟨f, hf, hval⟩
    exact ⟨f, hf, by rw [hval]; decide⟩
  · refine C5_lossy_rejection.2.2.2 ⟨.float64, [.vFloat 1, .vFloat (mkRat 7 2)]⟩
      rfl ?_ ⟨mkRat 7 2, by simp, by decide⟩
    intro v hv
    rcases List.mem_cons.mp hv with rfl | hv2
    · exact .inr ⟨1, rfl⟩
    · rcases List.mem_cons.mp hv2 with rfl | hv3
      · exact .inr ⟨mkRat 7 2, rfl⟩
      · cases hv3

/-- C6: whenever an `add_row` call that omits `rating` and passes both
`likes` and `dislikes` succeeds, the appended row (index label
`len(data)`) stores exactly `rating = 5 * likes / (likes + dislikes)` in
exact arithmetic; the claimed instance likes=34, dislikes=6 → 4.25 is the
witness below. -/
theorem C6_rating_derivation (s : StatsData) (now ts : Rat) (vid : String)
    (views l d : Int) (s2 : StatsData)
    (h : add_row s now vid ts views none (some l) (some d) = .ok s2) :
    (s.length,
      (⟨vid, ts, views, some ((5 * (l : Rat)) / ((l : Rat) + (d : Rat))),
        some l, some d⟩ : Row)) ∈ s2 := by
  have hdiv : Rat.divInt (5 * l) (l + d)
      = (5 * (l : Rat)) / ((l : Rat) + (d : Rat)) := by
    rw [Rat.divInt_eq_div]
    push_cast
    ring
  unfold add_row at h
  repeat' split at h
  any_goals cases h
  all_goals
    try injections
    subst_eqs
    rw [← hdiv]
    exact mem_sortRows.mpr (mem_locSet_self _ _ _)

/-- Witness for C6 at the claimed instance: on an empty store,
`append(video_id="11charID000", timestamp=5, views=100, likes=34,
dislikes=6)` stores a row whose rating is `5*34/40 = 4.25`. -/
theorem C6_rating_derivation_witness :
    add_row [] 10 ("11charID000") 5 100 none (some 34) (some 6)
      = .ok [(0, (⟨("11charID000"), 5, 100, some (Rat.divInt 170 40),
                   some 34, some 6⟩ : Row))]
  ∧ (0, (⟨("11charID000"), 5, 100,
       some ((5 * (34 : Rat)) / ((34 : Rat) + (6 : Rat))),
       some 34, some 6⟩ : Row))
      ∈ [(0, (⟨("11charID000"), 5, 100, some (Rat.divInt 170 40),
               some 34, some 6⟩ : Row))]
  ∧ (5 * (34 : Rat)) / ((34 : Rat) + (6 : Rat)) = mkRat 17 4 := by
  have h1 : add_row [] 10 ("11charID000") 5 100 none (some 34) (some 6)
      = .ok [(0, (⟨("11charID000"), 5, 100, some (Rat.divInt 170 40),
                   some 34, some 6⟩ : Row))] := by decide
  refine ⟨h1, ?_, ?_⟩
  · simpa using C6_rating_derivation [] 10 5 ("11charID000") 100 34 6 _ h1
  · rw [show ((5 * (34 : Rat)) / ((34 : Rat) + (6 : Rat)))
        = ((170 : Rat) / (40 : Rat)) by norm_num]
    rw [Rat.mkRat_eq_div]
    norm_num

/-- C7 (counterexample): an `add_row` call whose scalar validations all
pass (shown by the first conjuncts) and whose `(video_id, timestamp)` pair
is fresh nevertheless raises — with `rating` omitted and
`likes = dislikes = 0` the rating derivation divides by zero — so the
claim's "the call succeeds" branch is false as stated. -/
theorem C7_validations_pass_yet_raises :
    is_video_id ("11charID000") = true
  ∧ ((3 : Rat) ≤ 10)
  ∧ ((0 : Int) ≤ 50)
  ∧ ((0 : Int) ≤ 0)
  ∧ (([] : StatsData).any (fun p =>
        p.2.video_id = ("11charID000") && p.2.timestamp = 3) = false)
  ∧ add_row [] 10 ("11charID000") 3 50 none (some 0) (some 0)
      = .error .zeroDivisionError
  ∧ PyErr.zeroDivisionError ≠ PyErr.duplicateRow ("11charID000") 3 := by
  decide

/-- C7 (amended): for typed arguments passing every scalar validation:
(1) if the `(video_id, timestamp)` pair already exists the call raises the
duplicate-row error (the scalar checks run first, so this needs them to
pass); (2) if the pair is fresh the call succeeds provided additionally
that `rating` is given, or `likes`/`dislikes` are not both given, or
`likes + dislikes ≠ 0` (otherwise the rating derivation raises
ZeroDivisionError); (3) whenever the call raises, the row collection is
exactly as before — in the source every `raise` precedes the first
mutation of `self._data`. -/
theorem C7_add_row_spec (s : StatsData) (now ts : Rat) (vid : String)
    (views : Int) (rating : Option Rat) (likes dislikes : Option Int)
    (hvid : is_video_id vid = true) (hts : ts ≤ now) (hviews : 0 ≤ views)
    (hrat : ∀ r, rating = some r → 0 ≤ r ∧ r ≤ 5)
    (hl : ∀ v, likes = some v → 0 ≤ v)
    (hd : ∀ v, dislikes = some v → 0 ≤ v) :
    (s.any (fun p => p.2.video_id = vid && p.2.timestamp = ts) = true →
      add_row s now vid ts views rating likes dislikes
        = .error (.duplicateRow vid ts))
  ∧ (s.any (fun p => p.2.video_id = vid && p.2.timestamp = ts) = false →
     (rating.isSome ∨ likes.isNone ∨ dislikes.isNone
        ∨ likes.getD 0 + dislikes.getD 0 ≠ 0) →
      ∃ s2, add_row s now vid ts views rating likes dislikes = .ok s2)
  ∧ (∀ e, add_row s now vid ts views rating likes dislikes = .error e →
      add_row_post s now vid ts views rating likes dislikes = s) := by
  have hb1 : (!is_video_id vid) = false := by rw [hvid]; rfl
  have hb2 : ¬ (ts > now) := not_lt.mpr hts
  have hb3 : ¬ (views < 0) := not_lt.mpr hviews
  have hb4 : ∀ ro : Option Rat, (∀ r, ro = some r → 0 ≤ r ∧ r ≤ 5) →
      (match ro with
        | some r => decide (r < 0) || decide (5 < r)
        | none => false) = false := by
    intro ro hro
    cases ro with
    | none => rfl
    | some r =>
      rcases hro r rfl with ⟨h1, h2⟩
      simp [decide_eq_false (not_lt.mpr h1), decide_eq_false (not_lt.mpr h2)]
  have hb5 : ∀ lo : Option Int, (∀ v, lo = some v → 0 ≤ v) →
      (match lo with
        | some v => decide (v < 0)
        | none => false) = false := by
    intro lo hlo
    cases lo with
    | none => rfl
    | some v => simp [decide_eq_false (not_lt.mpr (hlo v rfl))]
  refine ⟨?_, ?_, fun e he => by simp [add_row_post, he]⟩
  · intro hdup
    simp only [add_row, hb1, hb4 rating hrat, hb5 likes hl, hb5 dislikes hd,
      if_neg hb2, if_neg hb3, Bool.false_eq_true, if_false, hdup, if_true]
  · intro hdup hcase
    simp only [add_row, hb1, hb4 rating hrat, hb5 likes hl, hb5 dislikes hd,
      if_neg hb2, if_neg hb3, Bool.false_eq_true, if_false, hdup]
    rcases rating with _ | r
    · rcases likes with _ | l
      · exact ⟨_, rfl⟩
      · rcases dislikes with _ | d
        · exact ⟨_, rfl⟩
        · have hsum : l + d ≠ 0 := by
            rcases hcase with h | h | h | h
            · simp at h
            · simp at h
            · simp at h
            · simpa using h
          refine ⟨sortRows (locSet s s.length
              ⟨vid, ts, views, some (Rat.divInt (5 * l) (l + d)),
               some l, some d⟩), ?_⟩
          show (if l + d = 0 then (Except.error PyErr.zeroDivisionError) else _) = _
          rw [if_neg hsum]
    · exact ⟨_, rfl⟩

/-- Witness for C7's amended statement at concrete inputs: a duplicate
pair errors, a fresh timestamp succeeds, and a raising call (the
zero-denominator derivation) leaves the store unchanged. -/
theorem C7_add_row_spec_witness :
    add_row [(0, (⟨("CCCCCCCCCCC"), 1, 10, none, none, none⟩ : Row))] 10
        ("CCCCCCCCCCC") 1 20 none none none
      = .error (.duplicateRow ("CCCCCCCCCCC") 1)
  ∧ (∃ s2, add_row [(0, (⟨("CCCCCCCCCCC"), 1, 10, none, none, none⟩ : Row))] 10
        ("CCCCCCCCCCC") 2 20 none none none = .ok s2)
  ∧ add_row_post [(0, (⟨("CCCCCCCCCCC"), 1, 10, none, none, none⟩ : Row))] 10
        ("CCCCCCCCCCC") 3 20 none (some 0) (some 0)
      = [(0, (⟨("CCCCCCCCCCC"), 1, 10, none, none, none⟩ : Row))] := by
  refine ⟨?_, ?_, ?_⟩
  · exact (C7_add_row_spec _ 10 1 ("CCCCCCCCCCC") 20 none none none
      (by decide) (by decide) (by decide)
      (fun r h => nomatch h) (fun v h => nomatch h) (fun v h => nomatch h)).1
      (by decide)
  · exact (C7_add_row_spec _ 10 2 ("CCCCCCCCCCC") 20 none none none
      (by decide) (by decide) (by decide)
      (fun r h => nomatch h) (fun v h => nomatch h) (fun v h => nomatch h)).2.1
      (by decide) (.inr (.inl (by decide)))
  · exact (C7_add_row_spec _ 10 3 ("CCCCCCCCCCC") 20 none (some 0) (some 0)
      (by decide) (by decide) (by decide)
      (fun r h => nomatch h)
      (fun v h => by cases h; decide) (fun v h => by cases h; decide)).2.2
      .zeroDivisionError (by decide)

/-- C8: constructing a `Stats` store from a table whose column-name set
differs from the six expected names raises the schema error carrying the
report built by `schemaReportOf`; the report names both the missing and
the extra set when both are nonempty and only the relevant one
otherwise. -/
theorem C8_schema_mismatch (data : Table)
    (h : (tableNames data).toFinset ≠ expectedNames.toFinset) :
    stats_init data = .error (.columnsMismatch (schemaReportOf
        (expectedNames.toFinset \ (tableNames data).toFinset)
        ((tableNames data).toFinset \ expectedNames.toFinset)))
  ∧ (∀ missing extra : Finset String, missing ≠ ∅ → extra ≠ ∅ →
       schemaReportOf missing extra = .bothSets missing extra)
  ∧ (∀ missing extra : Finset String, missing ≠ ∅ → extra = ∅ →
       schemaReportOf missing extra = .missingOnly missing)
  ∧ (∀ extra : Finset String,
       schemaReportOf ∅ extra = .extraOnly extra) := by
  have hpos : ∀ u : Finset String, u ≠ ∅ → decide (u.card > 0) = true :=
    fun u hu => decide_eq_true
      (Finset.card_pos.mpr (Finset.nonempty_iff_ne_empty.mpr hu))
  refine ⟨?_, ?_, ?_, ?_⟩
  · simp only [stats_init]
    rw [if_pos h]
  · intro m e hm he
    unfold schemaReportOf
    rw [hpos m hm, hpos e he]
    rfl
  · intro m e hm he
    subst he
    unfold schemaReportOf
    rw [hpos m hm]
    rw [if_neg (by decide :
      ¬ ((true && decide ((∅ : Finset String).card > 0)) = true))]
    rw [if_pos (Finset.card_pos.mpr (Finset.nonempty_iff_ne_empty.mpr hm))]
  · intro e
    rfl

/-- Witness for C8 at the claimed scenario: missing {'dislikes'} and extra
{'foo'} are reported together. -/
theorem C8_schema_mismatch_witness :
    (tableNames c8data).toFinset ≠ expectedNames.toFinset
  ∧ stats_init c8data
      = .error (.columnsMismatch (.bothSets {("dislikes")} {("foo")})) := by
  have h : (tableNames c8data).toFinset ≠ expectedNames.toFinset := by decide
  refine ⟨h, ?_⟩
  rw [(C8_schema_mismatch c8data h).1]
  have hrep : schemaReportOf
      (expectedNames.toFinset \ (tableNames c8data).toFinset)
      ((tableNames c8data).toFinset \ expectedNames.toFinset)
      = .bothSets {("dislikes")} {("foo")} := by decide
  rw [hrep]

theorem exMap_error {f : Val → Except PyErr Val} :
    ∀ {vs : List Val} {e : PyErr}, exMap f vs = .error e →
      ∃ v ∈ vs, f v = .error e := by
  intro vs
  induction vs with
  | nil => intro e h; cases h
  | cons v tl ih =>
    intro e h
    simp only [exMap] at h
    cases hv : f v with
    | error e2 => rw [hv] at h; cases h; exact ⟨v, by simp, hv⟩
    | ok r =>
      rw [hv] at h
      cases hrest : exMap f tl with
      | error e2 =>
        rw [hrest] at h
        cases h
        rcases ih hrest with ⟨w, hw, hwe⟩
        exact ⟨w, by simp [hw], hwe⟩
      | ok rs => rw [hrest] at h; cases h

theorem astypeCell_error_eq (d : Dtype) (v : Val) (e : PyErr)
    (h : astypeCell d v = .error e) : e = .pyTypeError := by
  cases d <;> cases v <;>
    simp only [astypeCell] at h <;>
    (try (repeat' split at h)) <;>
    (first | (cases h; rfl) | cases h)

theorem seriesAstype_error_eq (s : Series) (d : Dtype) (e : PyErr)
    (h : seriesAstype s d = .error e) : e = .pyTypeError := by
  simp only [seriesAstype] at h
  cases hm : exMap (astypeCell d) s.values with
  | error e2 =>
    rw [hm] at h
    cases h
    rcases exMap_error hm with ⟨v, _, hv⟩
    exact astypeCell_error_eq d v _ hv
  | ok vs => rw [hm] at h; cases h

theorem statsCoerceCol_error_eq (kwargs : List (String × Tsp))
    (p : String × Series) (e : PyErr)
    (h : statsCoerceCol kwargs p = .error e) : e = .pyTypeError := by
  simp only [statsCoerceCol] at h
  split at h
  · cases h
  · split at h
    · rename_i ha
      cases h
      exact seriesAstype_error_eq _ _ _ ha
    · cases h

theorem stats_coerce_dtypes_error_eq (kwargs : List (String × Tsp)) :
    ∀ (data : Table) (e : PyErr),
      stats_coerce_dtypes data kwargs = .error e → e = .pyTypeError := by
  intro data
  induction data with
  | nil => intro e h; cases h
  | cons p rest ih =>
    intro e h
    simp only [stats_coerce_dtypes] at h
    cases hq : statsCoerceCol kwargs p with
    | error e2 => rw [hq] at h; cases h; exact statsCoerceCol_error_eq _ _ _ hq
    | ok q =>
      rw [hq] at h
      cases hrest : stats_coerce_dtypes rest kwargs with
      | error e2 => rw [hrest] at h; cases h; exact ih _ hrest
      | ok qs => rw [hrest] at h; cases h

theorem reorderCols_error_eq (data : Table) :
    ∀ (names : List String) (e : PyErr),
      reorderCols data names = .error e → e = .keyError := by
  intro names
  induction names with
  | nil => intro e h; cases h
  | cons n rest ih =>
    intro e h
    simp only [reorderCols] at h
    cases hl : lookupCol data n with
    | none => rw [hl] at h; cases h; rfl
    | some s =>
      rw [hl] at h
      cases hrest : reorderCols data rest with
      | error e2 => rw [hrest] at h; cases h; exact ih _ hrest
      | ok t => rw [hrest] at h; cases h

theorem dropNull_convertDtypes_nil (s : Series)
    (h : dropNull s.values = []) : dropNull s.convertDtypes.values = [] := by
  obtain ⟨dt, vs⟩ := s
  have hint : ∀ v : Val, v.isNull = true → (Val.toIntCell v).isNull = true := by
    intro v hv
    cases v <;> simp_all [Val.toIntCell, Val.isNull]
  have hna : ∀ v : Val, v.isNull = true →
      ((if v.isNull then Val.vNA else v) : Val).isNull = true := by
    intro v hv
    rw [hv]
    rfl
  simp only at h
  cases dt with
  | int64 => exact h
  | nullableInt => exact h
  | float64 =>
    simp only [Series.convertDtypes]
    split
    · exact dropNull_map_nil hint h
    · exact dropNull_map_nil hna h
  | nullableFloat => exact h
  | complex128 =>
    simp only [Series.convertDtypes]
    split
    · exact dropNull_map_nil hint h
    · exact h
  | npBool => exact h
  | nullableBool => exact h
  | stringDt => exact h
  | datetime64 => exact h
  | timedelta64 => exact h
  | object =>
    simp only [Series.convertDtypes, convertObjectCells, h, List.isEmpty_nil]
    exact h

/-- The inlined per-column check of `statsValidateCols` agrees with the
general keyword-loop `stats_check_dtypes` on a single keyword. -/
theorem stats_check_dtypes_single (data : Table) (name : String) (t : Tsp) :
    stats_check_dtypes data [(name, t)]
      = match lookupCol data name with
        | none => .error .keyError
        | some col => .ok (stats_check_dtypes_one col t) := by
  simp only [stats_check_dtypes]
  cases lookupCol data name with
  | none => rfl
  | some col =>
    by_cases hch : stats_check_dtypes_one col t = true
    · simp [hch, stats_check_dtypes]
    · rw [Bool.not_eq_true] at hch
      simp [hch, stats_check_dtypes]

theorem statsValidateCols_ne_type_error (data : Table) (name : String)
    (col : Series) (hcol : lookupCol data name = some col)
    (hall : ∀ t, stats_check_dtypes_one col t = true) :
    ∀ cols, statsValidateCols data cols ≠ .error (.columnTypeMismatch name) := by
  intro cols
  induction cols with
  | nil => intro hc; cases hc
  | cons c rest ih =>
    obtain ⟨n, ts, na⟩ := c
    intro hc
    simp only [statsValidateCols] at hc
    split at hc
    · cases hc
    · rename_i c2 hl
      split at hc
      · rename_i hbad
        cases hc
        rw [hcol] at hl
        cases hl
        rw [hall ts] at hbad
        simp at hbad
      · split at hc
        · cases hc
        · exact ih hc

/-- C10: the per-column type predicate of `datatube.stats.check_dtypes`
accepts every all-missing column, whatever its storage dtype and whatever
typespec is requested — the `len(column.dropna()) > 0` conjunct
short-circuits the failure condition — and consequently `Stats.__init__`
can never raise its column-type-mismatch error for an all-missing column;
only the separate required-column missing-value check can reject it. -/
theorem C10_all_missing_passes_type_check (col : Series)
    (h : dropNull col.values = []) :
    (∀ t : Tsp, stats_check_dtypes_one col t = true)
  ∧ (∀ (data : Table) (name : String), lookupCol data name = some col →
       stats_init data ≠ .error (.columnTypeMismatch name)) := by
  have hone : ∀ t : Tsp, stats_check_dtypes_one col t = true := by
    intro t
    have hconv := dropNull_convertDtypes_nil col h
    simp [stats_check_dtypes_one, hconv]
  refine ⟨hone, ?_⟩
  intro data name hcol hinit
  simp only [stats_init] at hinit
  split at hinit
  · rw [Except.error.injEq] at hinit
    cases hinit
  · split at hinit
    · rename_i e hval
      rw [Except.error.injEq] at hinit
      subst hinit
      exact statsValidateCols_ne_type_error data name col hcol hone _ hval
    · split at hinit
      · rename_i e hco
        rw [Except.error.injEq] at hinit
        subst hinit
        have := stats_coerce_dtypes_error_eq _ _ _ hco
        cases this
      · rename_i coerced hco
        have := reorderCols_error_eq coerced expectedNames _ hinit
        cases this

/-- Witness for C10 at a concrete all-missing float column: every typespec
accepts it and a store built around it cannot raise the type-mismatch
error for its column. -/
theorem C10_all_missing_passes_type_check_witness :
    stats_check_dtypes_one ⟨.float64, [Val.vNan]⟩ .tDatetime = true
  ∧ stats_init [(("views"), ⟨.float64, [Val.vNan]⟩)]
      ≠ .error (.columnTypeMismatch ("views")) :=
  ⟨(C10_all_missing_passes_type_check ⟨.float64, [Val.vNan]⟩ (by decide)).1
      .tDatetime,
   (C10_all_missing_passes_type_check ⟨.float64, [Val.vNan]⟩ (by decide)).2
      [(("views"), ⟨.float64, [Val.vNan]⟩)] ("views") (by decide)⟩

/-- Witness for C4's amended statement at the concrete all-missing column
[pd.NA, None]. -/
theorem C4_all_missing_by_storage_witness :
    dropNull [Val.vNA, Val.vNone] = []
  ∧ get_series_dtype ⟨.object, [Val.vNA, Val.vNone]⟩ = .ok .object
  ∧ get_series_dtype ⟨.complex128, [Val.vNA, Val.vNone]⟩ = .ok .int :=
  ⟨by decide, (C4_all_missing_by_storage [Val.vNA, Val.vNone] (by decide)).1,
    (C4_all_missing_by_storage [Val.vNA, Val.vNone] (by decide)).2.1⟩

/-- C1 (amended): the round trip is a narrowing, not an identity.  For
every nonempty column C and numeric target T in {integer, float, complex},
whenever `coerce_dtypes(C, T)` succeeds, classifying the result with
`get_series_dtype` succeeds and returns a type narrower than or equal to T
in the order integer < float < complex. -/
theorem C1_roundtrip_narrowing (C : Series) (t : Atomic) (R : Series)
    (ht : t = Atomic.int ∨ t = Atomic.float ∨ t = Atomic.complex)
    (hne : C.values ≠ [])
    (hok : coerce_dtypes_series C t = .ok R) :
    ∃ a, get_series_dtype R = .ok a ∧ narrowLE a t = true := by
  have hcc : coerce_column C t = .ok R := by
    unfold coerce_dtypes_series at hok
    cases h : coerce_column C t <;> simp only [h] at hok
    · rename_i e
      by_cases hv : isValueError e = true
      · rw [if_pos hv] at hok; cases hok
      · rw [if_neg hv] at hok; cases hok
    · rw [hok]
  clear hok
  unfold coerce_column at hcc
  have hobj : ¬(t = Atomic.object) := by
    rcases ht with rfl | rfl | rfl <;> simp
  rw [if_neg hobj] at hcc
  cases hgsd : get_series_dtype C with
  | error e => simp only [hgsd] at hcc; cases hcc
  | ok from_type =>
    simp only [hgsd] at hcc
    by_cases hid : from_type = t
    · rw [if_pos hid] at hcc
      cases hcc
      exact ⟨t, hid ▸ hgsd, by rcases ht with rfl | rfl | rfl <;> rfl⟩
    · rw [if_neg hid] at hcc
      have hcd1 : ¬((from_type = Atomic.str && t = Atomic.datetime) = true) := by
        rcases ht with rfl | rfl | rfl <;> simp
      have hcd2 : ¬((from_type = Atomic.str && t = Atomic.timedelta) = true) := by
        rcases ht with rfl | rfl | rfl <;> simp
      rw [if_neg hcd1, if_neg hcd2] at hcc
      cases hconv : conversions from_type t with
      | none => simp only [hconv] at hcc; cases hcc
      | some f =>
        simp only [hconv] at hcc
        unfold applySeries at hcc
        cases hmap : exMap (do_coercion f t C) C.values with
        | error e => simp only [hmap] at hcc; cases hcc
        | ok rs =>
          simp only [hmap] at hcc
          cases hcc
          have hf2 := exMap_ok_forall2 hmap
          have hlen := hf2.length_eq
          have hner : rs ≠ [] := by
            intro hnil
            rw [hnil] at hlen
            exact hne (List.eq_nil_of_length_eq_zero hlen)
          apply classify_shaped t rs hner ht
          intro r hr
          rcases forall2_mem_right hf2 r hr with ⟨v, _, hfv⟩
          exact conv_numeric_shape from_type t f hconv v r (do_coercion_ok hfv)

/-- C1 counterexample to the claim as stated: coercing the integer column
[1] to float succeeds, but the classifier reports integer for the result
(the whole-valued float column narrows back), so classify(coerce(C, T))
is not T. -/
theorem C1_roundtrip_counterexample :
    coerce_dtypes_series ⟨.int64, [Val.vInt 1]⟩ .float
        = .ok ⟨.float64, [Val.vFloat 1]⟩
  ∧ get_series_dtype ⟨.float64, [Val.vFloat 1]⟩ = .ok .int
  ∧ Atomic.int ≠ Atomic.float := by
  refine ⟨by decide, by decide, by decide⟩

/-- Witness for C1's amended statement at the same concrete input: the
round trip on [1] with target float lands on integer, which is narrower
than float. -/
theorem C1_roundtrip_narrowing_witness :
    ∃ a, get_series_dtype ⟨.float64, [Val.vFloat 1]⟩ = .ok a ∧
      narrowLE a .float = true :=
  C1_roundtrip_narrowing ⟨.int64, [Val.vInt 1]⟩ .float
    ⟨.float64, [Val.vFloat 1]⟩ (Or.inr (Or.inl rfl)) (by decide) (by decide)

end Datatube
